import Mathlib

/-!
# OpenPF2 core rules: a shallow embedding

Lean model of the rule logic of the OpenPF2 plugin: the ability-modifier
calculation and its Table 1-1 test mapping, the weight-ordered passive
gameplay effects of an ability system component, the mode-of-play switching
of `APF2GameModeBase`, the character level of `APF2CharacterBase`, the
armor class calculation, the queued action of the wait-for-initiative-turn
ability task, and the wiring of command bindings to input.

Conventions.
* A `float` is the rational it holds.  The sums of the armor class
  calculation are rounded as single precision rounds them (`RoundToFloat`,
  `FloatAdd`: 24 bits of significand, ties to even; the exponent range is not
  modelled), and the `int32 → float → int32` round trip of the character
  level is modelled to the bit (`int32ToFloat`, `floatToInt32`).  The ability
  modifier, modelled from its documented formula, is exact.
* Engine objects are records; calls that leave the modelled code (rule-set
  callbacks, log lines, spawning and destroying actors, Blueprint events) are
  appended to an event trace in call order.
* A call on a null pointer does not return: the functions that can reach one
  (`CreateModeOfPlayRuleSet` and its callers) return an `Option`, and `none`
  is the crash.
-/

namespace PF2

/-! ## Ability modifiers (`UPF2AbilityModifierCalculation`, `FPF2AbilityModSpec`) -/

/-- Modelled from the spec: the body of `UPF2AbilityModifierCalculation::DoCalculation`
is not among the sources (only its declaration is); the rule documented there and in
the specification is `Floor(Score / 2) - 5`. -/
def DoCalculation (AbilityScore : ℚ) : ℚ :=
  ((⌊AbilityScore / 2⌋ : ℤ) : ℚ) - 5

/-- `TMap::Add`: stores `Value` under `Key`, replacing an entry with the same key. -/
def TMapAdd {K V : Type} [DecidableEq K] (Map : List (K × V)) (Key : K) (Value : V) :
    List (K × V) :=
  Map.filter (fun Entry => decide (Entry.1 ≠ Key)) ++ [(Key, Value)]

/-- `FPF2AbilityModSpec::LoadAbModMappings`: the expected modifiers of Table 1-1,
added to `AbModMappings` (a `TMap<float, float>`) one by one. -/
def LoadAbModMappings (AbModMappings : List (ℚ × ℚ)) : List (ℚ × ℚ) :=
  let M := TMapAdd AbModMappings 1 (-5)
  let M := TMapAdd M 2 (-4)
  let M := TMapAdd M 3 (-4)
  let M := TMapAdd M 4 (-3)
  let M := TMapAdd M 5 (-3)
  let M := TMapAdd M 6 (-2)
  let M := TMapAdd M 7 (-2)
  let M := TMapAdd M 8 (-1)
  let M := TMapAdd M 9 (-1)
  let M := TMapAdd M 10 0
  let M := TMapAdd M 11 0
  let M := TMapAdd M 12 1
  let M := TMapAdd M 13 1
  let M := TMapAdd M 14 2
  let M := TMapAdd M 15 2
  let M := TMapAdd M 16 3
  let M := TMapAdd M 17 3
  let M := TMapAdd M 18 4
  let M := TMapAdd M 19 4
  let M := TMapAdd M 20 5
  let M := TMapAdd M 21 5
  let M := TMapAdd M 22 6
  let M := TMapAdd M 23 6
  let M := TMapAdd M 24 7
  TMapAdd M 25 7

/-- The expected modifier the test table records for an ability value, if any
(the `ValuePair` that `VerifyModifier` is called with for that key). -/
def ExpectedModifier (AbilityValue : ℚ) : Option ℚ :=
  (LoadAbModMappings []).lookup AbilityValue

/-! ## Passive gameplay effects (`IPF2AbilitySystemInterface`) -/

/-- What an ability system component does to its active effects container,
in the order it happens. -/
inductive EffectEvent (W E : Type) where
  | Applied (WeightGroup : W) (Effect : E)
  | Removed (WeightGroup : W) (Effect : E)
  deriving DecidableEq, Repr

/-- An OpenPF2 ability system component, as far as `IPF2AbilitySystemInterface`
describes it: the passive GEs keyed by weight group (a `TMultiMap`, kept as its
list of entries), the passive GEs that are applied at the moment (in the order they
were applied), the dynamic tags, the granted abilities, and the record of what was
applied to and removed from the component. -/
structure AbilitySystemComponent (W E : Type) where
  PassiveGameplayEffects : List (W × E)
  ActivatedPassiveEffects : List (W × E)
  bPassiveEffectsActive : Bool
  DynamicTags : List String
  Abilities : List String
  EffectLog : List (EffectEvent W E)
  deriving DecidableEq, Repr

section AbilitySystem

variable {W E : Type}

/-- `ArePassiveGameplayEffectsActive`. -/
def AbilitySystemComponent.ArePassiveGameplayEffectsActive
    (Asc : AbilitySystemComponent W E) : Bool :=
  Asc.bPassiveEffectsActive

/-- The order in which a set of passive GEs is applied: by weight group, lowest
first ("lower weights are applied earlier than higher weights"); entries of one
group keep the order they have in the map. -/
def ActivationOrder [LinearOrder W] (Effects : List (W × E)) : List (W × E) :=
  Effects.insertionSort (fun A B => A.1 ≤ B.1)

/-- Modelled from the spec: `ActivateAllPassiveGameplayEffects` is declared in
`IPF2AbilitySystemInterface` and implemented by a component that is not among the
sources.  Passive effects are applied in ascending weight-group order; a component
whose passive GEs are already active is not activated again. -/
def ActivateAllPassiveGameplayEffects [LinearOrder W]
    (Asc : AbilitySystemComponent W E) : AbilitySystemComponent W E :=
  if Asc.ArePassiveGameplayEffectsActive then
    Asc
  else
    let Order := ActivationOrder Asc.PassiveGameplayEffects
    { Asc with
      ActivatedPassiveEffects := Order
      bPassiveEffectsActive := true
      EffectLog := Asc.EffectLog ++ Order.map (fun P => EffectEvent.Applied P.1 P.2) }

/-- Modelled from the spec: `DeactivateAllPassiveGameplayEffects` is declared in
`IPF2AbilitySystemInterface` and implemented by a component that is not among the
sources.  It removes all passive GEs that were previously activated, in the reverse
of the order in which they were applied. -/
def DeactivateAllPassiveGameplayEffects
    (Asc : AbilitySystemComponent W E) : AbilitySystemComponent W E :=
  { Asc with
    ActivatedPassiveEffects := []
    bPassiveEffectsActive := false
    EffectLog :=
      Asc.EffectLog ++
        Asc.ActivatedPassiveEffects.reverse.map (fun P => EffectEvent.Removed P.1 P.2) }

/-- Modelled from the spec: `SetPassiveGameplayEffects` (implementation not among
the sources).  "If passive GEs are currently active on this ASC, they will be
removed and the new GEs will be applied as part of this call." -/
def SetPassiveGameplayEffects [LinearOrder W]
    (Asc : AbilitySystemComponent W E) (Effects : List (W × E)) :
    AbilitySystemComponent W E :=
  if Asc.ArePassiveGameplayEffectsActive then
    ActivateAllPassiveGameplayEffects
      { DeactivateAllPassiveGameplayEffects Asc with PassiveGameplayEffects := Effects }
  else
    { Asc with PassiveGameplayEffects := Effects }

/-- Modelled from the spec: `AppendDynamicTags` (implementation not among the
sources).  "If passive GEs are currently active on this ASC, they will be
re-applied when this method is called." -/
def AppendDynamicTags [LinearOrder W]
    (Asc : AbilitySystemComponent W E) (Tags : List String) :
    AbilitySystemComponent W E :=
  if Asc.ArePassiveGameplayEffectsActive then
    ActivateAllPassiveGameplayEffects
      { DeactivateAllPassiveGameplayEffects Asc with DynamicTags := Asc.DynamicTags ++ Tags }
  else
    { Asc with DynamicTags := Asc.DynamicTags ++ Tags }

end AbilitySystem

/-- A component with four passive GEs in three weight groups, not yet activated. -/
def SampleAbilitySystemComponent : AbilitySystemComponent String String :=
  { PassiveGameplayEffects :=
      [("WeightGroup.10", "GE_Heritage"),
       ("WeightGroup.00", "GE_BaseStats"),
       ("WeightGroup.20", "GE_CalcAbilityModifiers"),
       ("WeightGroup.00", "GE_BaseHitPoints")]
    ActivatedPassiveEffects := []
    bPassiveEffectsActive := false
    DynamicTags := []
    Abilities := []
    EffectLog := [] }

/-! ## Modes of play (`APF2GameModeBase`) -/

/-- `EPF2ModeOfPlayType`, with the enumerators the game mode names. -/
inductive EPF2ModeOfPlayType where
  | None
  | Encounter
  | Exploration
  | Downtime
  deriving DecidableEq, Repr

/-- `PF2EnumUtilities::ToString` on a mode of play (used in log lines only). -/
def EPF2ModeOfPlayType.ToString : EPF2ModeOfPlayType → String
  | .None => "None"
  | .Encounter => "Encounter"
  | .Exploration => "Exploration"
  | .Downtime => "Downtime"

/-- The class of a rule set (a `UClass*`): its name and whether it derives from
`AActor`. -/
structure RuleSetClass where
  Name : String
  bIsChildOfActor : Bool
  deriving DecidableEq, Repr

/-- A class reference of `ModeRuleSets`, a `TSubclassOf<APF2ModeOfPlayRuleSetBase>`:
null, or a class derived from `APF2ModeOfPlayRuleSetBase` (an actor class), given by its
name. -/
inductive TSubclassOfRuleSetBase where
  | Null
  | Class (Name : String)
  deriving DecidableEq, Repr

/-- The `UClass*` behind a class reference of `ModeRuleSets`: `none` for the null class,
otherwise a class that derives from `AActor`, as `APF2ModeOfPlayRuleSetBase` does. -/
def TSubclassOfRuleSetBase.Get : TSubclassOfRuleSetBase → Option RuleSetClass
  | .Null => none
  | .Class Name => some { Name := Name, bIsChildOfActor := true }

/-- A rule set object: the object's identity and its class. -/
structure RuleSet where
  ObjectId : Nat
  Class : RuleSetClass
  deriving DecidableEq, Repr

/-- A character handed to the game mode (`TScriptInterface<IPF2CharacterInterface>`). -/
structure CharacterRef where
  ObjectId : Nat
  CharacterName : String
  deriving DecidableEq, Repr

/-- A command handed to the game mode
(`TScriptInterface<IPF2CharacterCommandInterface>`). -/
structure CommandRef where
  ObjectId : Nat
  CommandLabel : String
  deriving DecidableEq, Repr

/-- Verbosity of a `UE_LOG` line. -/
inductive ELogVerbosity where
  | Error
  | Warning
  | VeryVerbose
  deriving DecidableEq, Repr

/-- Modelled from the spec: the game state behind `IPF2GameStateInterface`
(`PF2GameStateInterface.h` is not among the sources).  It holds the current mode of
play and the active mode-of-play rule set, `nullptr` being `none`. -/
structure GameState where
  ModeOfPlay : EPF2ModeOfPlayType
  ModeOfPlayRuleSet : Option RuleSet
  deriving DecidableEq, Repr

/-- Modelled from the spec: `IPF2GameStateInterface::SwitchModeOfPlay` (not among the
sources) records the new mode and the new rule set in the game state. -/
def GameState.SwitchModeOfPlay (_State : GameState) (NewMode : EPF2ModeOfPlayType)
    (NewRuleSet : Option RuleSet) : GameState :=
  { ModeOfPlay := NewMode, ModeOfPlayRuleSet := NewRuleSet }

/-- Calls of the game mode that leave the game mode, in call order. -/
inductive GameModeEvent where
  | Log (Category : String) (Verbosity : ELogVerbosity) (Format : String) (Args : List String)
  | SuperBeginPlay
  | SpawnActor (Object : RuleSet)
  | NewObject (Object : RuleSet)
  | OnModeOfPlayEnd (Rules : RuleSet) (Mode : EPF2ModeOfPlayType)
  | Destroy (Rules : RuleSet)
  | SwitchModeOfPlay (Mode : EPF2ModeOfPlayType) (Rules : Option RuleSet)
  | OnModeOfPlayStart (Rules : RuleSet) (Mode : EPF2ModeOfPlayType)
  | OnCharacterAddedToEncounter (Rules : RuleSet) (Character : CharacterRef)
  | OnCharacterRemovedFromEncounter (Rules : RuleSet) (Character : CharacterRef)
  | RuleSetAttemptToExecuteOrQueueCommand (Rules : RuleSet) (Character : CharacterRef)
      (Command : CommandRef)
  | AttemptExecuteImmediately (Command : CommandRef)
  deriving DecidableEq, Repr

/-- `APF2GameModeBase` in its world: the rule-set class configured per mode of play
(`ModeRuleSets`, a `TMap<EPF2ModeOfPlayType, TSubclassOf<APF2ModeOfPlayRuleSetBase>>`,
kept as its entries; an entry may hold the null class), the PF2 game state if the
current game state implements `IPF2GameStateInterface` (`none` if it does not), the
identity the next created object gets, and the calls made so far. -/
structure GameMode where
  ModeRuleSets : List (EPF2ModeOfPlayType × TSubclassOfRuleSetBase)
  GameState : Option GameState
  NextObjectId : Nat
  Trace : List GameModeEvent
  deriving DecidableEq, Repr

/-- What the game mode cannot decide by itself: the answers of rule sets and commands
(Blueprint-implementable), over result types declared outside the sources. -/
structure Collaborators (ImmediateResult QueueResult : Type) where
  CanTransitionTo : RuleSet → GameState → EPF2ModeOfPlayType → Bool
  RuleSetAttemptToExecuteOrQueueCommand : RuleSet → CharacterRef → CommandRef → QueueResult
  AttemptExecuteImmediately : CommandRef → ImmediateResult
  ImmediateResultToExecuteOrQueueResult : ImmediateResult → QueueResult

/-- Appends one call to the trace of the game mode. -/
def GameMode.Emit (Mode : GameMode) (Event : GameModeEvent) : GameMode :=
  { Mode with Trace := Mode.Trace ++ [Event] }

/-- `APF2GameModeBase::CreateModeOfPlayRuleSet`.  The outer `none` is the crash of
`RuleSetType->IsChildOf(...)` on a mode that the map holds with the null class: the
source checks `Contains` only. -/
def CreateModeOfPlayRuleSet (Mode : GameMode) (ModeOfPlay : EPF2ModeOfPlayType) :
    Option (Option RuleSet × GameMode) :=
  match Mode.ModeRuleSets.lookup ModeOfPlay with
  | some Configured =>
    match Configured.Get with
    | none => none
    | some RuleSetType =>
      let NewRuleSet : RuleSet := { ObjectId := Mode.NextObjectId, Class := RuleSetType }
      let Mode := { Mode with NextObjectId := Mode.NextObjectId + 1 }
      if RuleSetType.bIsChildOfActor then
        some (some NewRuleSet, Mode.Emit (.SpawnActor NewRuleSet))
      else
        some (some NewRuleSet, Mode.Emit (.NewObject NewRuleSet))
  | none => some (none, Mode)

/-- `APF2GameModeBase::GetModeOfPlayRuleSet`. -/
def GetModeOfPlayRuleSet (Mode : GameMode) : Option RuleSet × GameMode :=
  match Mode.GameState with
  | none =>
    (none,
      Mode.Emit (.Log "LogPf2Core" .Error
        "Mode of Play Rule Set (MoPRS) support is not enabled because the current game state is not compatible with PF2."
        []))
  | some Pf2GameState => (Pf2GameState.ModeOfPlayRuleSet, Mode)

/-- `APF2GameModeBase::ForceSwitchModeOfPlay`; `none` is the crash inside
`CreateModeOfPlayRuleSet`. -/
def ForceSwitchModeOfPlay (Mode : GameMode) (NewModeOfPlay : EPF2ModeOfPlayType) :
    Option GameMode :=
  match Mode.GameState with
  | none =>
    some
      (Mode.Emit (.Log "LogPf2Core" .Error
        "Cannot transition to new mode of play (%s) because current game state is not compatible with PF2."
        [NewModeOfPlay.ToString]))
  | some Pf2GameState =>
    let OldModeOfPlay := Pf2GameState.ModeOfPlay
    let OldRuleSet := Pf2GameState.ModeOfPlayRuleSet
    match CreateModeOfPlayRuleSet Mode NewModeOfPlay with
    | none => none
    | some (NewRuleSet, Mode) =>
      let Mode :=
        match OldRuleSet with
        | some Old =>
          let Mode := Mode.Emit (.OnModeOfPlayEnd Old OldModeOfPlay)
          if Old.Class.bIsChildOfActor then Mode.Emit (.Destroy Old) else Mode
        | none => Mode
      let Mode :=
        { Mode.Emit (.SwitchModeOfPlay NewModeOfPlay NewRuleSet) with
          GameState := some (Pf2GameState.SwitchModeOfPlay NewModeOfPlay NewRuleSet) }
      match NewRuleSet with
      | some New => some (Mode.Emit (.OnModeOfPlayStart New NewModeOfPlay))
      | none => some Mode

section GameModeCalls

variable {ImmediateResult QueueResult : Type}

/-- `APF2GameModeBase::AttemptModeOfPlaySwitch`; `none` is the crash inside
`CreateModeOfPlayRuleSet`, reached through `ForceSwitchModeOfPlay`. -/
def AttemptModeOfPlaySwitch (Env : Collaborators ImmediateResult QueueResult)
    (Mode : GameMode) (NewModeOfPlay : EPF2ModeOfPlayType) : Option GameMode :=
  match Mode.GameState with
  | none =>
    some
      (Mode.Emit (.Log "LogPf2Core" .Error
        "Cannot transition to new mode of play (%s) because current game state is not compatible with PF2."
        [NewModeOfPlay.ToString]))
  | some Pf2GameState =>
    let OldModeOfPlay := Pf2GameState.ModeOfPlay
    let OldRuleSet := Pf2GameState.ModeOfPlayRuleSet
    let (bCanTransition, Mode) :=
      if OldModeOfPlay = EPF2ModeOfPlayType.None then
        (true, Mode)
      else
        match OldRuleSet with
        | none =>
          (true,
            Mode.Emit (.Log "LogPf2Core" .Warning
              "There is no loaded rule set, so a requested transition from the current mode of play (%s) to a new mode of play (%s) has automatically been allowed."
              [OldModeOfPlay.ToString, NewModeOfPlay.ToString]))
        | some Old =>
          if !Env.CanTransitionTo Old Pf2GameState NewModeOfPlay then
            (false,
              Mode.Emit (.Log "LogPf2Core" .Warning
                "Refusing to transition from current mode of play (%s) to new mode (%s) because loaded rule set does not allow the transition."
                [Pf2GameState.ModeOfPlay.ToString, NewModeOfPlay.ToString]))
          else
            (true, Mode)
    if bCanTransition then ForceSwitchModeOfPlay Mode NewModeOfPlay else some Mode

/-- `APF2GameModeBase::RequestEncounterMode`. -/
def RequestEncounterMode (Env : Collaborators ImmediateResult QueueResult)
    (Mode : GameMode) : Option GameMode :=
  AttemptModeOfPlaySwitch Env Mode .Encounter

/-- `APF2GameModeBase::RequestExplorationMode`. -/
def RequestExplorationMode (Env : Collaborators ImmediateResult QueueResult)
    (Mode : GameMode) : Option GameMode :=
  AttemptModeOfPlaySwitch Env Mode .Exploration

/-- `APF2GameModeBase::RequestDowntimeMode`. -/
def RequestDowntimeMode (Env : Collaborators ImmediateResult QueueResult)
    (Mode : GameMode) : Option GameMode :=
  AttemptModeOfPlaySwitch Env Mode .Downtime

/-- `APF2GameModeBase::BeginPlay`: the engine's `BeginPlay`, then the switch to
exploration. -/
def BeginPlay (Env : Collaborators ImmediateResult QueueResult) (Mode : GameMode) :
    Option GameMode :=
  AttemptModeOfPlaySwitch Env (Mode.Emit .SuperBeginPlay) .Exploration

/-- `APF2GameModeBase::AddCharacterToEncounter`. -/
def AddCharacterToEncounter (Mode : GameMode) (Character : CharacterRef) : GameMode :=
  match GetModeOfPlayRuleSet Mode with
  | (none, Mode) =>
    Mode.Emit (.Log "LogPf2CoreEncounters" .Error
      "No MoPRS is set. Ignoring request to add character (%s) to encounter."
      [Character.CharacterName])
  | (some Rules, Mode) => Mode.Emit (.OnCharacterAddedToEncounter Rules Character)

/-- `APF2GameModeBase::RemoveCharacterFromEncounter`. -/
def RemoveCharacterFromEncounter (Mode : GameMode) (Character : CharacterRef) : GameMode :=
  match GetModeOfPlayRuleSet Mode with
  | (none, Mode) =>
    Mode.Emit (.Log "LogPf2CoreEncounters" .Error
      "No MoPRS is set. Ignoring request to remove character (%s) from encounter."
      [Character.CharacterName])
  | (some Rules, Mode) => Mode.Emit (.OnCharacterRemovedFromEncounter Rules Character)

/-- `APF2GameModeBase::AttemptToExecuteOrQueueCommand`. -/
def AttemptToExecuteOrQueueCommand (Env : Collaborators ImmediateResult QueueResult)
    (Mode : GameMode) (Character : CharacterRef) (Command : CommandRef) :
    QueueResult × GameMode :=
  match GetModeOfPlayRuleSet Mode with
  | (none, Mode) =>
    let Mode :=
      Mode.Emit (.Log "LogPf2CoreEncounters" .Error
        "No MoPRS is set. Performing command (%s) without queuing."
        [Command.CommandLabel])
    (Env.ImmediateResultToExecuteOrQueueResult (Env.AttemptExecuteImmediately Command),
      Mode.Emit (.AttemptExecuteImmediately Command))
  | (some Rules, Mode) =>
    (Env.RuleSetAttemptToExecuteOrQueueCommand Rules Character Command,
      Mode.Emit (.RuleSetAttemptToExecuteOrQueueCommand Rules Character Command))

end GameModeCalls

/-- The calls made between two states of the game mode, the second reached from the
first: the part of the later trace that the earlier one does not have. -/
def NewEvents (Before After : GameMode) : List GameModeEvent :=
  After.Trace.drop Before.Trace.length

/-- A log line, as opposed to a call that creates, ends, destroys, switches or starts
something, or that reaches a rule set or a command. -/
def GameModeEvent.IsLog : GameModeEvent → Bool
  | .Log _ _ _ _ => true
  | _ => false

/-- A rule-set class for exploration, derived from the rule-set base class. -/
def SampleExplorationRules : TSubclassOfRuleSetBase :=
  .Class "BP_ExplorationRules"

/-- A rule-set class for encounters, derived from the rule-set base class. -/
def SampleEncounterRules : TSubclassOfRuleSetBase :=
  .Class "BP_EncounterRules"

/-- Collaborators whose rule sets veto every transition to downtime, with numbers as
result codes. -/
def SampleCollaborators : Collaborators Nat Nat :=
  { CanTransitionTo := fun _ _ NewModeOfPlay => decide (NewModeOfPlay ≠ EPF2ModeOfPlayType.Downtime)
    RuleSetAttemptToExecuteOrQueueCommand := fun _ _ _ => 2
    AttemptExecuteImmediately := fun _ => 1
    ImmediateResultToExecuteOrQueueResult := fun Result => Result }

/-- A game state in exploration mode with an exploration rule set loaded. -/
def SampleGameState : GameState :=
  { ModeOfPlay := .Exploration
    ModeOfPlayRuleSet :=
      some { ObjectId := 0, Class := { Name := "BP_ExplorationRules", bIsChildOfActor := true } } }

/-- A game mode with rule sets for exploration and encounters, in exploration. -/
def SampleGameMode : GameMode :=
  { ModeRuleSets := [(.Exploration, SampleExplorationRules), (.Encounter, SampleEncounterRules)]
    GameState := some SampleGameState
    NextObjectId := 1
    Trace := [] }

/-- The same game mode before play begins: a PF2 game state without mode or rule set. -/
def SampleGameModeAtStart : GameMode :=
  { SampleGameMode with
    GameState := some { ModeOfPlay := .None, ModeOfPlayRuleSet := none }
    NextObjectId := 0 }

/-- A game mode before play begins whose designer left the class for exploration
unset: the map holds exploration with the null class. -/
def SampleGameModeWithNullClass : GameMode :=
  { SampleGameModeAtStart with
    ModeRuleSets := [(.Exploration, .Null), (.Encounter, SampleEncounterRules)] }

/-- The same game mode in a world whose game state is not a PF2 game state. -/
def SampleGameModeWithoutPf2State : GameMode :=
  { SampleGameMode with GameState := none }

/-- A character to add to encounters. -/
def SampleCharacter : CharacterRef :=
  { ObjectId := 7, CharacterName := "Valeros" }

/-- A command to execute or queue. -/
def SampleCommand : CommandRef :=
  { ObjectId := 8, CommandLabel := "Strike" }

/-! ## Character level (`APF2CharacterBase`) -/

/-- `FGameplayTagContainer::AddTag`: adds a valid tag that is not in the container. -/
def AddTag (Tags : List String) (Tag : String) : List String :=
  if Tag = "" ∨ Tag ∈ Tags then Tags else Tags ++ [Tag]

/-- `FGameplayTagContainer::AppendTags`. -/
def AppendTags (Tags Other : List String) : List String :=
  Other.foldl AddTag Tags

/-- Distance between neighbouring single-precision floats at an integer magnitude of at
most `2 ^ 31` (24 bits of significand). -/
def float32Ulp (Magnitude : Nat) : Nat :=
  if Magnitude < 2 ^ 24 then 1
  else if Magnitude < 2 ^ 25 then 2
  else if Magnitude < 2 ^ 26 then 4
  else if Magnitude < 2 ^ 27 then 8
  else if Magnitude < 2 ^ 28 then 16
  else if Magnitude < 2 ^ 29 then 32
  else if Magnitude < 2 ^ 30 then 64
  else if Magnitude < 2 ^ 31 then 128
  else 256

/-- The implicit conversion `int32 → float`: the nearest single-precision value, ties to
the even significand.  The result is an integer, and is kept as one. -/
def int32ToFloat (Value : Int) : Int :=
  let Magnitude := Value.natAbs
  let Ulp := float32Ulp Magnitude
  let Quotient := Magnitude / Ulp
  let Remainder := Magnitude % Ulp
  let Rounded :=
    if 2 * Remainder < Ulp then Quotient
    else if Ulp < 2 * Remainder then Quotient + 1
    else if Quotient % 2 = 0 then Quotient
    else Quotient + 1
  Int.sign Value * ((Rounded * Ulp : Nat) : Int)

/-- The implicit conversion `float → int32` of an integer-valued float.  Outside the
range of `int32` C++ leaves the result undefined; the model takes what x86 yields
there, `0x80000000`. -/
def floatToInt32 (Value : Int) : Int :=
  if -(2 ^ 31) ≤ Value ∧ Value < 2 ^ 31 then Value else -(2 ^ 31)

/-- Calls of the character that leave `APF2CharacterBase`: the calls on its ability
system component and the Blueprint event for a changed level (with its `float`
arguments). -/
inductive CharacterEvent where
  | DeactivateAllPassiveGameplayEffects
  | SetPassiveGameplayEffects (Effects : List (String × String))
  | AppendDynamicTags (Tags : List String)
  | ActivateAllPassiveGameplayEffects
  | ClearAbility (Ability : String)
  | OnCharacterLevelChanged (OldLevel NewLevel : Int)
  deriving DecidableEq, Repr

/-- The weight groups and the weight-group lookup of `PF2CharacterConstants` and
`PF2GameplayAbilityUtilities`, whose values are not among the sources. -/
structure WeightGroups where
  ManagedEffects : String
  PreAbilityBoosts : String
  GetWeightGroupOfGameplayEffect : String → String → String

/-- `APF2CharacterBase`, as far as the character level and the passive gameplay effects
go.  Names (`FName`), gameplay-effect classes, ability classes and tags are strings; a
class reference that may be null is an `Option`. -/
structure Character where
  CharacterLevel : Int
  bIsAuthority : Bool
  AbilitySystemComponent : AbilitySystemComponent String String
  CoreGameplayEffects : List (String × String)
  ManagedGameplayEffects : List (String × String)
  AdditionalPassiveGameplayEffects : List String
  AncestryAndHeritage : Option String
  Background : Option String
  bManagedPassiveEffectsGenerated : Bool
  Alignment : String
  AdditionalLanguages : List String
  AdditionalSkillProficiencies : List String
  AppliedAbilityBoostSelections : List String
  Trace : List CharacterEvent
  deriving DecidableEq, Repr

/-- `APF2CharacterBase::GetCharacterLevel`. -/
def GetCharacterLevel (Self : Character) : Int :=
  Self.CharacterLevel

/-- `APF2CharacterBase::IsAuthorityForEffects`. -/
def IsAuthorityForEffects (Self : Character) : Bool :=
  Self.bIsAuthority

/-- `APF2CharacterBase::GenerateManagedPassiveGameplayEffects`. -/
def GenerateManagedPassiveGameplayEffects (Groups : WeightGroups) (Self : Character) :
    Character :=
  if IsAuthorityForEffects Self && !Self.bManagedPassiveEffectsGenerated then
    let EffectBlueprints := [Self.AncestryAndHeritage, Self.Background]
    let Managed :=
      EffectBlueprints.foldl
        (fun Managed EffectBlueprint =>
          match EffectBlueprint with
          | some Effect =>
            Managed ++
              [(Groups.GetWeightGroupOfGameplayEffect Effect Groups.ManagedEffects, Effect)]
          | none => Managed)
        Self.ManagedGameplayEffects
    { Self with ManagedGameplayEffects := Managed, bManagedPassiveEffectsGenerated := true }
  else
    Self

/-- `APF2CharacterBase::PopulatePassiveGameplayEffects`. -/
def PopulatePassiveGameplayEffects (Groups : WeightGroups) (Self : Character) : Character :=
  let Self := GenerateManagedPassiveGameplayEffects Groups Self
  let GameplayEffects := Self.CoreGameplayEffects ++ Self.ManagedGameplayEffects
  let GameplayEffects :=
    Self.AdditionalPassiveGameplayEffects.foldl
      (fun GameplayEffects AdditionalEffect =>
        GameplayEffects ++
          [(Groups.GetWeightGroupOfGameplayEffect AdditionalEffect Groups.PreAbilityBoosts,
            AdditionalEffect)])
      GameplayEffects
  { Self with
    AbilitySystemComponent := SetPassiveGameplayEffects Self.AbilitySystemComponent GameplayEffects
    Trace := Self.Trace ++ [.SetPassiveGameplayEffects GameplayEffects] }

/-- `APF2CharacterBase::ApplyDynamicTags`. -/
def ApplyDynamicTags (Self : Character) : Character :=
  let DynamicTags := AddTag [] Self.Alignment
  let DynamicTags := AppendTags DynamicTags Self.AdditionalLanguages
  let DynamicTags := AppendTags DynamicTags Self.AdditionalSkillProficiencies
  { Self with
    AbilitySystemComponent := AppendDynamicTags Self.AbilitySystemComponent DynamicTags
    Trace := Self.Trace ++ [.AppendDynamicTags DynamicTags] }

/-- `APF2CharacterBase::RemoveRedundantPendingAbilityBoosts`: every applied boost
selection whose ability is still granted has that ability cleared. -/
def RemoveRedundantPendingAbilityBoosts (Self : Character) : Character :=
  if IsAuthorityForEffects Self then
    Self.AppliedAbilityBoostSelections.foldl
      (fun Self BoostGa =>
        if BoostGa ∈ Self.AbilitySystemComponent.Abilities then
          { Self with
            AbilitySystemComponent :=
              { Self.AbilitySystemComponent with
                Abilities := Self.AbilitySystemComponent.Abilities.erase BoostGa }
            Trace := Self.Trace ++ [.ClearAbility BoostGa] }
        else
          Self)
      Self
  else
    Self

/-- `APF2CharacterBase::ActivatePassiveGameplayEffects`. -/
def ActivatePassiveGameplayEffects (Groups : WeightGroups) (Self : Character) : Character :=
  if IsAuthorityForEffects Self
      && !Self.AbilitySystemComponent.ArePassiveGameplayEffectsActive then
    let Self := PopulatePassiveGameplayEffects Groups Self
    let Self := ApplyDynamicTags Self
    let Self :=
      { Self with
        AbilitySystemComponent := ActivateAllPassiveGameplayEffects Self.AbilitySystemComponent
        Trace := Self.Trace ++ [.ActivateAllPassiveGameplayEffects] }
    RemoveRedundantPendingAbilityBoosts Self
  else
    Self

/-- `APF2CharacterBase::DeactivatePassiveGameplayEffects`. -/
def DeactivatePassiveGameplayEffects (Self : Character) : Character :=
  if IsAuthorityForEffects Self then
    { Self with
      AbilitySystemComponent := DeactivateAllPassiveGameplayEffects Self.AbilitySystemComponent
      Trace := Self.Trace ++ [.DeactivateAllPassiveGameplayEffects] }
  else
    Self

/-- `APF2CharacterBase::HandleCharacterLevelChanged`; both parameters are `float`. -/
def HandleCharacterLevelChanged (Groups : WeightGroups) (Self : Character)
    (OldLevel NewLevel : Int) : Character :=
  let Self := DeactivatePassiveGameplayEffects Self
  let Self := { Self with CharacterLevel := floatToInt32 NewLevel }
  let Self := { Self with Trace := Self.Trace ++ [.OnCharacterLevelChanged OldLevel NewLevel] }
  ActivatePassiveGameplayEffects Groups Self

/-- `APF2CharacterBase::SetCharacterLevel`; `NewLevel` is an `int32`, converted to
`float` at the call of `HandleCharacterLevelChanged`. -/
def SetCharacterLevel (Groups : WeightGroups) (Self : Character) (NewLevel : Int) :
    Bool × Character :=
  let OldLevel := Self.CharacterLevel
  if OldLevel ≠ NewLevel ∧ NewLevel > 0 then
    (true, HandleCharacterLevelChanged Groups Self (int32ToFloat OldLevel) (int32ToFloat NewLevel))
  else
    (false, Self)

/-- Weight groups for the sample character: one effect names its own group, every other
effect goes to the default group. -/
def SampleWeightGroups : WeightGroups :=
  { ManagedEffects := "WeightGroup.05"
    PreAbilityBoosts := "WeightGroup.10"
    GetWeightGroupOfGameplayEffect := fun Effect Default =>
      if Effect = "GE_KeyAbility" then "WeightGroup.15" else Default }

/-- A first-level character on the server whose passive GEs are active. -/
def SampleCharacterBase : Character :=
  { CharacterLevel := 1
    bIsAuthority := true
    AbilitySystemComponent :=
      ActivateAllPassiveGameplayEffects
        { SampleAbilitySystemComponent with Abilities := ["GA_BoostAncestry", "GA_Strike"] }
    CoreGameplayEffects := [("WeightGroup.00", "GE_BaseStats"), ("WeightGroup.20", "GE_CalcAbilityModifiers")]
    ManagedGameplayEffects := []
    AdditionalPassiveGameplayEffects := ["GE_Toughness", "GE_KeyAbility"]
    AncestryAndHeritage := some "GE_Human"
    Background := none
    bManagedPassiveEffectsGenerated := false
    Alignment := "CreatureAlignment.Neutral.Good"
    AdditionalLanguages := ["Language.Common"]
    AdditionalSkillProficiencies := []
    AppliedAbilityBoostSelections := ["GA_BoostAncestry"]
    Trace := [] }

/-! ## Armor class (`UPF2ArmorClassCalculation`) -/

/-- A gameplay tag: its dot-separated name, segment by segment
(`Armor.Equipped.Heavy` is `["Armor", "Equipped", "Heavy"]`). -/
abbrev FGameplayTag := List String

/-- A gameplay-effect spec, as far as the armor class calculation reads it: the
aggregated captured source and target tags and the magnitudes of the captured
attributes by attribute name. -/
structure FGameplayEffectSpec where
  CapturedSourceTags : List FGameplayTag
  CapturedTargetTags : List FGameplayTag
  CapturedAttributes : List (String × ℚ)
  deriving DecidableEq, Repr

/-- `GameplayAbilityUtils::HasTag`, that is `FGameplayTagContainer::HasTag`: true if a tag
of the container is the given tag or one of its children. -/
def HasTag (Tags : List FGameplayTag) (TagNameOrParent : FGameplayTag) : Bool :=
  Tags.any (fun Tag => TagNameOrParent.isPrefixOf Tag)

/-- `GetCapturedAttributeMagnitude`: the magnitude of a captured attribute, if the spec
captured it. -/
def GetCapturedAttributeMagnitude (CaptureDefinition : String) (Spec : FGameplayEffectSpec) :
    Option ℚ :=
  Spec.CapturedAttributes.lookup CaptureDefinition

/-- The attribute behind `DexterityModifierCaptureDefinition`
(`FPF2AbilityAttributes::AbDexterityModifierDef`). -/
def DexterityModifierCaptureDefinition : String := "AbDexterityModifier"

/-- `UPF2ArmorClassCalculation::GetDexterityModifier`: the captured Dexterity modifier,
`0.0f` if it was not captured. -/
def GetDexterityModifier (Spec : FGameplayEffectSpec) : ℚ :=
  let DexterityModifier : ℚ := 0
  match GetCapturedAttributeMagnitude DexterityModifierCaptureDefinition Spec with
  | some Magnitude => Magnitude
  | none => DexterityModifier

/-- `UPF2ArmorClassCalculation::DetermineArmorType`. -/
def DetermineArmorType (SourceTags : List FGameplayTag) : String :=
  let ArmorType := "Unarmored"
  if HasTag SourceTags ["Armor", "Equipped"] then
    if HasTag SourceTags ["Armor", "Equipped", "Heavy"] then "Heavy"
    else if HasTag SourceTags ["Armor", "Equipped", "Medium"] then "Medium"
    else if HasTag SourceTags ["Armor", "Equipped", "Light"] then "Light"
    else ArmorType
  else
    ArmorType

/-- `UPF2ArmorClassCalculation::CalculateArmorTypeProficiencyBonus`.
`CalculateProficiencyBonus` belongs to the base class `UPF2TemlCalculationBase`, which is
not among the sources, and is a parameter. -/
def CalculateArmorTypeProficiencyBonus
    (CalculateProficiencyBonus : String → FGameplayEffectSpec → ℚ)
    (Spec : FGameplayEffectSpec) : ℚ :=
  let ArmorType := DetermineArmorType Spec.CapturedSourceTags
  let ArmorTypeProficiency := "Armor.Category." ++ ArmorType
  CalculateProficiencyBonus ArmorTypeProficiency Spec

/-- The integer nearest to a rational, the even one of the two if it lies halfway. -/
def RoundHalfEven (Value : ℚ) : ℤ :=
  let Floor := ⌊Value⌋
  let Fraction := Value - Floor
  if Fraction < 1 / 2 then Floor
  else if 1 / 2 < Fraction then Floor + 1
  else if Floor % 2 = 0 then Floor
  else Floor + 1

/-- Rounding to single precision: the nearest number with 24 bits of significand, ties
to the even significand.  The exponent range of `float` is not modelled (no overflow to
infinity, no subnormal numbers). -/
def RoundToFloat (Value : ℚ) : ℚ :=
  if Value = 0 then 0
  else
    let Exponent : ℤ := Int.log 2 |Value|
    let Ulp : ℚ := 2 ^ (Exponent - 23)
    (RoundHalfEven (Value / Ulp) : ℚ) * Ulp

/-- The sum of two `float`s, a `float` again: `A + B` in C++. -/
def FloatAdd (A B : ℚ) : ℚ :=
  RoundToFloat (A + B)

/-- `UPF2ArmorClassCalculation::CalculateBaseMagnitude_Implementation`: the sum
`10.0f + DexterityModifier + ArmorTypeProficiencyBonus`, added from the left in
`float`. -/
def CalculateBaseMagnitude_Implementation
    (CalculateProficiencyBonus : String → FGameplayEffectSpec → ℚ)
    (Spec : FGameplayEffectSpec) : ℚ :=
  let DexterityModifier := GetDexterityModifier Spec
  let ArmorTypeProficiencyBonus :=
    CalculateArmorTypeProficiencyBonus CalculateProficiencyBonus Spec
  let AbilityScore := FloatAdd (FloatAdd 10 DexterityModifier) ArmorTypeProficiencyBonus
  AbilityScore

/-- A spec of a character in heavy armor with the given Dexterity modifier. -/
def SampleHeavyArmorSpec (DexterityModifier : ℚ) : FGameplayEffectSpec :=
  { CapturedSourceTags := [["Armor", "Equipped", "Heavy", "FullPlate"], ["Trait", "Human"]]
    CapturedTargetTags := []
    CapturedAttributes := [("AbDexterityModifier", DexterityModifier)] }

/-- A proficiency calculation that grants 3 for heavy armor and 2 for anything else. -/
def SampleProficiencyBonus (TagParent : String) (_Spec : FGameplayEffectSpec) : ℚ :=
  if TagParent = "Armor.Category.Heavy" then 3 else 2

/-! ## Queued actions (`UPF2AbilityTask_WaitForInitiativeTurn`) -/

/-- `EPF2AbilityActivationResult` (declared outside the sources): the enumerator the task
names, and any other value. -/
inductive EPF2AbilityActivationResult where
  | Activated
  | Other (Value : Nat)
  deriving DecidableEq, Repr

/-- `EPF2ActionQueueResult` (declared outside the sources): the enumerators the task
names, and any other value. -/
inductive EPF2ActionQueueResult where
  | Refused
  | ExecutedImmediately
  | Queued
  | Other (Value : Nat)
  deriving DecidableEq, Repr

/-- The world of a task, as far as the task asks: the authoritative game mode if it
implements `IPF2GameModeInterface` (by object identity), `none` if there is no such game
mode (as on a client). -/
structure TaskWorld where
  Pf2GameMode : Option Nat
  deriving DecidableEq, Repr

/-- A call of `IPF2QueuedActionInterface` that changes the action. -/
inductive QueuedActionCall where
  | PerformAction
  | CancelAction
  deriving DecidableEq, Repr

/-- The part of the game mode in `QueueActionForInitiativeTurn`, whose implementation is
not among the sources: the calls it makes on the queued action before it returns (it
reaches the action through `IPF2QueuedActionInterface` only), and the result it hands
back. -/
structure GameModeReply where
  Calls : List QueuedActionCall
  QueueResult : EPF2ActionQueueResult
  deriving DecidableEq, Repr

/-- Calls of the task that leave the task, in call order: log lines, delegate
broadcasts, calls on the owning ability, on the ability system component and on the
game mode, and the engine's wait state. -/
inductive TaskEvent where
  | Log (Category : String) (Verbosity : ELogVerbosity) (Format : String) (Args : List String)
  | SetShouldBlockOtherAbilities (bShouldBlock : Bool)
  | OnReadyToAct
  | OnCancelled
  | OnQueued
  | ClientSetReplicatedEvent
  | CallOrAddReplicatedDelegate
  | ConsumeGenericReplicatedEvent
  | QueueActionForInitiativeTurn (GameMode : Nat) (Character : CharacterRef)
  | CancelActionQueuedForInitiativeTurn (GameMode : Nat) (Character : CharacterRef)
  | SetWaitingOnRemotePlayerData
  deriving DecidableEq, Repr

/-- `UPF2AbilityTask_WaitForInitiativeTurn` with what it reads from the engine: the owner
actor as a PF2 character (`none` if it is not one), whether the task has an ability and
an ability system component, the answers of `IsPredictingClient`, `IsForRemoteClient`,
`ShouldBroadcastAbilityTaskDelegates` and `IsPendingKill`, whether the task state is
`Finished`, whether the signal from the server has already arrived (client), the world,
and the fields of the task itself. -/
structure WaitForInitiativeTurnTask where
  OwnerCharacter : Option CharacterRef
  bHasAbility : Bool
  bHasAsc : Bool
  bIsPredictingClient : Bool
  bIsForRemoteClient : Bool
  bShouldBroadcastAbilityTaskDelegates : Bool
  bIsPendingKill : Bool
  bFinished : Bool
  bSignalFromServerReceived : Bool
  World : Option TaskWorld
  HostNetId : String
  ActionName : String
  WaitingCharacter : Option CharacterRef
  GameMode : Option Nat
  ActivationOutcome : EPF2AbilityActivationResult
  bAbilityBlocksOtherAbilities : Bool
  bWaitingOnRemotePlayerData : Bool
  Trace : List TaskEvent
  deriving DecidableEq, Repr

/-- Appends one call to the trace of the task. -/
def WaitForInitiativeTurnTask.Emit (Self : WaitForInitiativeTurnTask) (Event : TaskEvent) :
    WaitForInitiativeTurnTask :=
  { Self with Trace := Self.Trace ++ [Event] }

/-- Modelled from the spec: `WasActivated` is declared in the header of the task, which is
not among the sources.  The task was activated once its activation outcome is
`Activated`, the only outcome the task ever stores. -/
def WasActivated (Self : WaitForInitiativeTurnTask) : Bool :=
  Self.ActivationOutcome == EPF2AbilityActivationResult.Activated

/-- Modelled from the spec: `HasAbility` (header of the task, not among the sources):
the task has an owning ability. -/
def HasAbility (Self : WaitForInitiativeTurnTask) : Bool :=
  Self.bHasAbility

/-- Modelled from the spec: `HasAsc` (header of the task, not among the sources): the
task has an ability system component. -/
def HasAsc (Self : WaitForInitiativeTurnTask) : Bool :=
  Self.bHasAsc

/-- `UGameplayAbility::SetShouldBlockOtherAbilities` on the owning ability. -/
def SetShouldBlockOtherAbilities (Self : WaitForInitiativeTurnTask) (bShouldBlock : Bool) :
    WaitForInitiativeTurnTask :=
  { Self.Emit (.SetShouldBlockOtherAbilities bShouldBlock) with
    bAbilityBlocksOtherAbilities := bShouldBlock }

/-- `UAbilityTask::SetWaitingOnRemotePlayerData`. -/
def SetWaitingOnRemotePlayerData (Self : WaitForInitiativeTurnTask) :
    WaitForInitiativeTurnTask :=
  { Self.Emit .SetWaitingOnRemotePlayerData with bWaitingOnRemotePlayerData := true }

/-- `UPF2AbilityTask_WaitForInitiativeTurn::OnDestroy`. -/
def OnDestroy (Self : WaitForInitiativeTurnTask) (_bAbilityEnded : Bool) :
    WaitForInitiativeTurnTask :=
  match Self.WaitingCharacter, Self.GameMode with
  | some Character, some Mode =>
    if !WasActivated Self then
      Self.Emit (.CancelActionQueuedForInitiativeTurn Mode Character)
    else
      Self
  | _, _ => Self

/-- `UGameplayTask::EndTask` of the engine: a task that is not finished is destroyed
through `OnDestroy(false)`, or only marked finished if it is pending kill. -/
def EndTask (Self : WaitForInitiativeTurnTask) : WaitForInitiativeTurnTask :=
  if !Self.bFinished then
    if !Self.bIsPendingKill then
      OnDestroy Self false
    else
      { Self with bFinished := true }
  else
    Self

/-- `UPF2AbilityTask_WaitForInitiativeTurn::ExternalCancel`; `Super::ExternalCancel` is
the engine's, which ends the task. -/
def ExternalCancel (Self : WaitForInitiativeTurnTask) : WaitForInitiativeTurnTask :=
  if !WasActivated Self then
    let Self :=
      if Self.bShouldBroadcastAbilityTaskDelegates then Self.Emit .OnCancelled else Self
    EndTask Self
  else
    Self

/-- `UPF2AbilityTask_WaitForInitiativeTurn::CancelAction`. -/
def CancelAction (Self : WaitForInitiativeTurnTask) : WaitForInitiativeTurnTask :=
  ExternalCancel Self

/-- `UPF2AbilityTask_WaitForInitiativeTurn::PerformAction`. -/
def PerformAction (Self : WaitForInitiativeTurnTask) :
    EPF2AbilityActivationResult × WaitForInitiativeTurnTask :=
  if HasAbility Self && !Self.bIsPendingKill && !WasActivated Self then
    let Self :=
      Self.Emit (.Log "LogPf2CoreEncounters" .VeryVerbose
        "[%s] Performing action ('%s') for character ('%s')."
        [Self.HostNetId, Self.ActionName,
          match Self.WaitingCharacter with
          | some Character => Character.CharacterName
          | none => "UNK"])
    let Self := SetShouldBlockOtherAbilities Self true
    let Self :=
      if Self.bShouldBroadcastAbilityTaskDelegates then Self.Emit .OnReadyToAct else Self
    let Self :=
      if Self.bIsForRemoteClient && HasAsc Self then Self.Emit .ClientSetReplicatedEvent
      else Self
    let Self := { Self with ActivationOutcome := EPF2AbilityActivationResult.Activated }
    let Self := EndTask Self
    (Self.ActivationOutcome, Self)
  else
    (Self.ActivationOutcome, Self)

/-- `UPF2AbilityTask_WaitForInitiativeTurn::OnPerformAction_Client`. -/
def OnPerformAction_Client (Self : WaitForInitiativeTurnTask) : WaitForInitiativeTurnTask :=
  let Self := if HasAsc Self then Self.Emit .ConsumeGenericReplicatedEvent else Self
  (PerformAction Self).2

/-- `UPF2AbilityTask_WaitForInitiativeTurn::Activate_Client`.  The engine's
`CallOrAddReplicatedDelegate` calls the delegate at once if the signal from the server
has already arrived, and keeps it for later otherwise. -/
def Activate_Client (Self : WaitForInitiativeTurnTask) : WaitForInitiativeTurnTask :=
  if HasAsc Self then
    let Self := SetShouldBlockOtherAbilities Self false
    let Self := Self.Emit .CallOrAddReplicatedDelegate
    if Self.bSignalFromServerReceived then OnPerformAction_Client Self else Self
  else
    Self

/-- The game mode's `QueueActionForInitiativeTurn` seen from the task: the call is made,
the game mode makes its calls on the task, and the result comes back. -/
def QueueActionForInitiativeTurn (Reply : GameModeReply) (Self : WaitForInitiativeTurnTask)
    (Mode : Nat) (Character : CharacterRef) :
    EPF2ActionQueueResult × WaitForInitiativeTurnTask :=
  let Self := Self.Emit (.QueueActionForInitiativeTurn Mode Character)
  let Self :=
    Reply.Calls.foldl
      (fun Self Call =>
        match Call with
        | .PerformAction => (PerformAction Self).2
        | .CancelAction => CancelAction Self)
      Self
  (Reply.QueueResult, Self)

/-- `UPF2AbilityTask_WaitForInitiativeTurn::Activate_Server`. -/
def Activate_Server (Reply : GameModeReply) (Self : WaitForInitiativeTurnTask)
    (PF2Character : CharacterRef) : WaitForInitiativeTurnTask :=
  match Self.World with
  | some World =>
    match World.Pf2GameMode with
    | some PF2GameMode =>
      let Self := { Self with GameMode := some PF2GameMode }
      let (QueueResult, Self) :=
        QueueActionForInitiativeTurn Reply Self PF2GameMode PF2Character
      match QueueResult with
      | .Refused => CancelAction Self
      | .ExecutedImmediately => Self
      | _ =>
        let Self := Self.Emit .OnQueued
        let Self := SetShouldBlockOtherAbilities Self false
        SetWaitingOnRemotePlayerData Self
    | none => Self
  | none => Self

/-- `UPF2AbilityTask_WaitForInitiativeTurn::Activate`. -/
def Activate (Reply : GameModeReply) (Self : WaitForInitiativeTurnTask) :
    WaitForInitiativeTurnTask :=
  match Self.OwnerCharacter with
  | some PF2Character =>
    if HasAbility Self then
      let Self := { Self with WaitingCharacter := some PF2Character }
      if Self.bIsPredictingClient then
        Activate_Client Self
      else
        Activate_Server Reply Self PF2Character
    else
      Self
  | none => Self

/-- The calls a task made between two of its states, the second reached from the
first. -/
def NewTaskEvents (Before After : WaitForInitiativeTurnTask) : List TaskEvent :=
  After.Trace.drop Before.Trace.length

/-- A call that asks the game mode to take a queued action out of its queue. -/
def TaskEvent.IsCancelQueued : TaskEvent → Bool
  | .CancelActionQueuedForInitiativeTurn _ _ => true
  | _ => false

/-- A new task on the server, owned by a PF2 character, in a world with a PF2 game
mode. -/
def SampleTask : WaitForInitiativeTurnTask :=
  { OwnerCharacter := some SampleCharacter
    bHasAbility := true
    bHasAsc := true
    bIsPredictingClient := false
    bIsForRemoteClient := false
    bShouldBroadcastAbilityTaskDelegates := true
    bIsPendingKill := false
    bFinished := false
    bSignalFromServerReceived := false
    World := some { Pf2GameMode := some 1 }
    HostNetId := "Server"
    ActionName := "Strike"
    WaitingCharacter := none
    GameMode := none
    ActivationOutcome := .Other 0
    bAbilityBlocksOtherAbilities := true
    bWaitingOnRemotePlayerData := false
    Trace := [] }

/-- The task after it was activated on the server and the game mode queued it. -/
def SampleQueuedTask : WaitForInitiativeTurnTask :=
  Activate { Calls := [], QueueResult := .Queued } SampleTask

/-- The task right after the game mode answered `QueueActionForInitiativeTurn` in
`Activate_Server`: the game mode is stored, the call is made, and the game mode has made
its calls on the task. -/
def AskedToQueue (Reply : GameModeReply) (Self : WaitForInitiativeTurnTask) (Mode : Nat)
    (PF2Character : CharacterRef) : WaitForInitiativeTurnTask :=
  (QueueActionForInitiativeTurn Reply { Self with GameMode := some Mode } Mode PF2Character).2

/-- The sample task as `Activate` hands it to `Activate_Server`: the character that
waits is set. -/
def SampleWaitingTask : WaitForInitiativeTurnTask :=
  { SampleTask with WaitingCharacter := some SampleCharacter }

/-! ## Command bindings (`UPF2CommandBindingsComponent`, `FPF2CommandInputBinding`) -/

/-- `EInputEvent`, with the two events the bindings register. -/
inductive EInputEvent where
  | IE_Pressed
  | IE_Released
  deriving DecidableEq, Repr

/-- An action binding held by an input component (`FInputActionBinding`): its handle,
the action name and key event it was built from, and the command binding its delegate
is bound to, named by the ability spec handle of that binding. -/
structure FInputActionBinding where
  Handle : Nat
  ActionName : Option String
  KeyEvent : EInputEvent
  BoundAbilitySpecHandle : Nat
  deriving DecidableEq, Repr

/-- `UInputComponent` of the engine: the object's identity, its action bindings, and the
handle the next added binding gets. -/
structure UInputComponent where
  ObjectId : Nat
  ActionBindings : List FInputActionBinding
  NextHandle : Nat
  deriving DecidableEq, Repr

/-- `UInputComponent::AddActionBinding` of the engine: stores the binding under a new
handle and returns it. -/
def UInputComponent.AddActionBinding (Self : UInputComponent) (ActionName : Option String)
    (KeyEvent : EInputEvent) (BoundAbilitySpecHandle : Nat) :
    FInputActionBinding × UInputComponent :=
  let AddResult : FInputActionBinding :=
    { Handle := Self.NextHandle
      ActionName := ActionName
      KeyEvent := KeyEvent
      BoundAbilitySpecHandle := BoundAbilitySpecHandle }
  (AddResult,
    { Self with
      ActionBindings := Self.ActionBindings ++ [AddResult]
      NextHandle := Self.NextHandle + 1 })

/-- `UInputComponent::RemoveActionBindingForHandle` of the engine. -/
def UInputComponent.RemoveActionBindingForHandle (Self : UInputComponent) (Handle : Nat) :
    UInputComponent :=
  { Self with
    ActionBindings := Self.ActionBindings.filter (fun Binding => Binding.Handle != Handle) }

/-- `FPF2CommandInputBinding`: the action name (an `FName`, `none` being `NAME_None`),
the handle of the ability spec it invokes, and the handles of its action bindings. -/
structure FPF2CommandInputBinding where
  ActionName : Option String
  AbilitySpecHandle : Nat
  Handles : List Nat
  deriving DecidableEq, Repr

/-- Modelled from the spec: `FPF2CommandInputBinding::IsConnectedToInput` is declared in
a header that is not among the sources.  A binding is wired up while it holds
action-binding handles: `ConnectToInput` stores them and `DisconnectFromInput` empties
them. -/
def FPF2CommandInputBinding.IsConnectedToInput (Self : FPF2CommandInputBinding) : Bool :=
  !Self.Handles.isEmpty

/-- `FPF2CommandInputBinding::AddActionBinding`. -/
def FPF2CommandInputBinding.AddActionBinding (Self : FPF2CommandInputBinding)
    (InputComponent : UInputComponent) (InKeyEvent : EInputEvent) :
    Nat × UInputComponent :=
  let (AddResult, InputComponent) :=
    InputComponent.AddActionBinding Self.ActionName InKeyEvent Self.AbilitySpecHandle
  (AddResult.Handle, InputComponent)

/-- `FPF2CommandInputBinding::ConnectToInput`. -/
def FPF2CommandInputBinding.ConnectToInput (Self : FPF2CommandInputBinding)
    (InputComponent : UInputComponent) : FPF2CommandInputBinding × UInputComponent :=
  if !Self.IsConnectedToInput && !Self.ActionName.isNone then
    let NewHandles : List Nat := []
    let (Pressed, InputComponent) := Self.AddActionBinding InputComponent .IE_Pressed
    let NewHandles := NewHandles ++ [Pressed]
    let (Released, InputComponent) := Self.AddActionBinding InputComponent .IE_Released
    let NewHandles := NewHandles ++ [Released]
    ({ Self with Handles := NewHandles }, InputComponent)
  else
    (Self, InputComponent)

/-- `FPF2CommandInputBinding::DisconnectFromInput`. -/
def FPF2CommandInputBinding.DisconnectFromInput (Self : FPF2CommandInputBinding)
    (InputComponent : UInputComponent) : FPF2CommandInputBinding × UInputComponent :=
  if Self.IsConnectedToInput then
    ({ Self with Handles := [] },
      Self.Handles.foldl (fun Input Handle => Input.RemoveActionBindingForHandle Handle)
        InputComponent)
  else
    (Self, InputComponent)

/-- `UPF2CommandBindingsComponent`: its bindings and the input component it is wired to
(by object identity, `none` being `nullptr`). -/
structure UPF2CommandBindingsComponent where
  Bindings : List FPF2CommandInputBinding
  InputComponent : Option Nat
  deriving DecidableEq, Repr

/-- Modelled from the spec: `UPF2CommandBindingsComponent::IsConnectedToInput` is declared
in a header that is not among the sources.  The component is wired up while it holds an
input component: `ConnectToInput` stores it and `DisconnectFromInput` resets it to
`nullptr`. -/
def UPF2CommandBindingsComponent.IsConnectedToInput (Self : UPF2CommandBindingsComponent) :
    Bool :=
  Self.InputComponent.isSome

/-- The loop `for (FPF2CommandInputBinding& Binding : this->Bindings)` of
`UPF2CommandBindingsComponent::ConnectToInput`. -/
def ConnectBindingsToInput :
    List FPF2CommandInputBinding → UInputComponent →
      List FPF2CommandInputBinding × UInputComponent
  | [], InputComponent => ([], InputComponent)
  | Binding :: Rest, InputComponent =>
    let (Binding, InputComponent) := Binding.ConnectToInput InputComponent
    let (Rest, InputComponent) := ConnectBindingsToInput Rest InputComponent
    (Binding :: Rest, InputComponent)

/-- `UPF2CommandBindingsComponent::ConnectToInput`, for an input component that exists;
`none` is the failed `checkf`. -/
def UPF2CommandBindingsComponent.ConnectToInput (Self : UPF2CommandBindingsComponent)
    (NewInputComponent : UInputComponent) :
    Option (UPF2CommandBindingsComponent × UInputComponent) :=
  if !Self.IsConnectedToInput || Self.InputComponent == some NewInputComponent.ObjectId then
    let (Bindings, NewInputComponent) :=
      ConnectBindingsToInput Self.Bindings NewInputComponent
    some
      ({ Bindings := Bindings, InputComponent := some NewInputComponent.ObjectId },
        NewInputComponent)
  else
    none

/-- What `ConnectToInput` does to one binding, given the action bindings the input
component holds afterwards.  A binding that has an action name and is not wired up keeps
its action and ability and gets two handles, the first registered for the pressed and
the second for the released event of its action; any other binding is unchanged. -/
def WiredUp (Registered : List FInputActionBinding)
    (Before After : FPF2CommandInputBinding) : Prop :=
  (Before.ActionName ≠ none ∧ Before.IsConnectedToInput = false →
      After.ActionName = Before.ActionName
        ∧ After.AbilitySpecHandle = Before.AbilitySpecHandle
        ∧ ∃ Pressed Released, After.Handles = [Pressed, Released]
            ∧ ({ Handle := Pressed, ActionName := Before.ActionName, KeyEvent := .IE_Pressed,
                 BoundAbilitySpecHandle := Before.AbilitySpecHandle } : FInputActionBinding)
                ∈ Registered
            ∧ ({ Handle := Released, ActionName := Before.ActionName, KeyEvent := .IE_Released,
                 BoundAbilitySpecHandle := Before.AbilitySpecHandle } : FInputActionBinding)
                ∈ Registered)
    ∧ (¬ (Before.ActionName ≠ none ∧ Before.IsConnectedToInput = false) → After = Before)

/-- A bindings component with a binding to wire, a binding without an action and a
binding that is wired up already, not yet connected to input. -/
def SampleBindings : UPF2CommandBindingsComponent :=
  { Bindings :=
      [{ ActionName := some "Strike", AbilitySpecHandle := 1, Handles := [] },
       { ActionName := none, AbilitySpecHandle := 2, Handles := [] },
       { ActionName := some "Stride", AbilitySpecHandle := 3, Handles := [4, 5] }]
    InputComponent := none }

/-- An input component that holds the two action bindings of the wired sample binding. -/
def SampleInputComponent : UInputComponent :=
  { ObjectId := 9
    ActionBindings :=
      [{ Handle := 4, ActionName := some "Stride", KeyEvent := .IE_Pressed,
         BoundAbilitySpecHandle := 3 },
       { Handle := 5, ActionName := some "Stride", KeyEvent := .IE_Released,
         BoundAbilitySpecHandle := 3 }]
    NextHandle := 6 }

/-! ## Theorems -/

/-! ### Ability modifiers -/

/-- On integer scores the floor of half the score is integer division by two. -/
theorem DoCalculation_intCast (s : ℤ) : DoCalculation (s : ℚ) = ((s / 2 - 5 : ℤ) : ℚ) := by
  unfold DoCalculation
  have h : ⌊(s : ℚ) / 2⌋ = s / 2 := by
    have := Rat.floor_intCast_div_natCast s 2
    simpa using this
  rw [h]; push_cast; ring

/-- C1: for every integer ability score `s` with `1 ≤ s ≤ 25` the ability modifier is
`floor(s / 2) - 5`, and it is the expected modifier that the Table 1-1 mapping of the
test (`LoadAbModMappings`) records for `s`. -/
theorem ability_modifier_matches_table (s : ℤ) (h1 : 1 ≤ s) (h2 : s ≤ 25) :
    DoCalculation (s : ℚ) = ((⌊(s : ℚ) / 2⌋ - 5 : ℤ) : ℚ)
      ∧ ExpectedModifier (s : ℚ) = some (DoCalculation (s : ℚ)) := by
  refine ⟨by simp [DoCalculation], ?_⟩
  rw [DoCalculation_intCast]
  interval_cases s <;> decide

/-- C1 at the score 7: the modifier is `floor(7 / 2) - 5` and the table agrees. -/
theorem ability_modifier_matches_table_witness :
    ((1 : ℤ) ≤ 7 ∧ (7 : ℤ) ≤ 25)
      ∧ DoCalculation ((7 : ℤ) : ℚ) = ((⌊((7 : ℤ) : ℚ) / 2⌋ - 5 : ℤ) : ℚ)
      ∧ ExpectedModifier ((7 : ℤ) : ℚ) = some (DoCalculation ((7 : ℤ) : ℚ)) :=
  ⟨by decide, ability_modifier_matches_table 7 (by decide) (by decide)⟩
/-! ### Passive gameplay effects -/

section PassiveEffects

variable {W E : Type}

/-- The activation order rearranges the effects: none is lost, added or repeated. -/
theorem ActivationOrder_perm [LinearOrder W] (Effects : List (W × E)) :
    (ActivationOrder Effects).Perm Effects :=
  List.perm_insertionSort _ Effects

/-- The activation order is ascending in the weight group. -/
theorem ActivationOrder_sorted [LinearOrder W] (Effects : List (W × E)) :
    (ActivationOrder Effects).Pairwise (fun A B => A.1 ≤ B.1) := by
  haveI : IsTotal (W × E) (fun A B => A.1 ≤ B.1) := ⟨fun A B => le_total A.1 B.1⟩
  haveI : IsTrans (W × E) (fun A B => A.1 ≤ B.1) := ⟨fun _ _ _ h1 h2 => le_trans h1 h2⟩
  exact List.sorted_insertionSort (fun A B => A.1 ≤ B.1) Effects

/-- In an ascending list an entry of a lower weight group stands before every entry of
a higher one. -/
theorem lower_group_first [LinearOrder W] {Order : List (W × E)}
    (hSorted : Order.Pairwise (fun A B => A.1 ≤ B.1))
    (i j : Nat) (hi : i < Order.length) (hj : j < Order.length)
    (hlt : (Order[i]).1 < (Order[j]).1) : i < j := by
  by_contra hij
  rcases Nat.lt_or_eq_of_le (Nat.le_of_not_lt hij) with h | h
  · have := (List.pairwise_iff_getElem.mp hSorted) j i hj hi h
    exact absurd hlt (not_lt_of_le this)
  · subst h
    exact lt_irrefl _ hlt

/-- C2: activating all passive gameplay effects of an inactive ability system component
applies exactly its passive effects, every effect of a lower weight group before any
effect of a higher one, and deactivating them removes them in the reverse order. -/
theorem passive_effects_applied_in_weight_order [LinearOrder W]
    (Asc : AbilitySystemComponent W E)
    (hInactive : Asc.ArePassiveGameplayEffectsActive = false) :
    ∃ Order : List (W × E),
      Order.Perm Asc.PassiveGameplayEffects
        ∧ (∀ (i j : Nat) (hi : i < Order.length) (hj : j < Order.length),
            (Order[i]).1 < (Order[j]).1 → i < j)
        ∧ (ActivateAllPassiveGameplayEffects Asc).EffectLog
            = Asc.EffectLog ++ Order.map (fun P => EffectEvent.Applied P.1 P.2)
        ∧ (DeactivateAllPassiveGameplayEffects (ActivateAllPassiveGameplayEffects Asc)).EffectLog
            = (ActivateAllPassiveGameplayEffects Asc).EffectLog
                ++ Order.reverse.map (fun P => EffectEvent.Removed P.1 P.2) := by
  refine ⟨ActivationOrder Asc.PassiveGameplayEffects, ActivationOrder_perm _,
    lower_group_first (ActivationOrder_sorted _), ?_, ?_⟩
  · simp [ActivateAllPassiveGameplayEffects, hInactive]
  · simp [ActivateAllPassiveGameplayEffects, DeactivateAllPassiveGameplayEffects, hInactive]

/-- C2 on a component with four passive effects in three weight groups. -/
theorem passive_effects_applied_in_weight_order_witness :
    SampleAbilitySystemComponent.ArePassiveGameplayEffectsActive = false
      ∧ ∃ Order : List (String × String),
          Order.Perm SampleAbilitySystemComponent.PassiveGameplayEffects
            ∧ (∀ (i j : Nat) (hi : i < Order.length) (hj : j < Order.length),
                (Order[i]).1 < (Order[j]).1 → i < j)
            ∧ (ActivateAllPassiveGameplayEffects SampleAbilitySystemComponent).EffectLog
                = SampleAbilitySystemComponent.EffectLog
                    ++ Order.map (fun P => EffectEvent.Applied P.1 P.2)
            ∧ (DeactivateAllPassiveGameplayEffects
                  (ActivateAllPassiveGameplayEffects SampleAbilitySystemComponent)).EffectLog
                = (ActivateAllPassiveGameplayEffects SampleAbilitySystemComponent).EffectLog
                    ++ Order.reverse.map (fun P => EffectEvent.Removed P.1 P.2) :=
  ⟨rfl, passive_effects_applied_in_weight_order SampleAbilitySystemComponent rfl⟩

end PassiveEffects

/-! ### Modes of play -/

section ModeSwitch

variable {ImmediateResult QueueResult : Type}

/-- Creating a rule set crashes exactly for a mode that the map holds with the null
class. -/
theorem CreateModeOfPlayRuleSet_crash (Mode : GameMode) (ModeOfPlay : EPF2ModeOfPlayType) :
    CreateModeOfPlayRuleSet Mode ModeOfPlay = none
      ↔ Mode.ModeRuleSets.lookup ModeOfPlay = some .Null := by
  unfold CreateModeOfPlayRuleSet
  cases Mode.ModeRuleSets.lookup ModeOfPlay with
  | none => simp
  | some Configured =>
    cases Configured with
    | Null => simp [TSubclassOfRuleSetBase.Get]
    | Class Name => simp [TSubclassOfRuleSetBase.Get]

/-- The rule set a game mode creates for a mode of play: a new object of the class
configured for the mode, null if the map does not hold the mode. -/
theorem CreateModeOfPlayRuleSet_result (Mode Created : GameMode)
    (ModeOfPlay : EPF2ModeOfPlayType) (NewRuleSet : Option RuleSet)
    (hCreate : CreateModeOfPlayRuleSet Mode ModeOfPlay = some (NewRuleSet, Created)) :
    (Mode.ModeRuleSets.lookup ModeOfPlay = none ∧ NewRuleSet = none)
      ∨ ∃ Name, Mode.ModeRuleSets.lookup ModeOfPlay = some (.Class Name)
          ∧ NewRuleSet
              = some { ObjectId := Mode.NextObjectId
                       Class := { Name := Name, bIsChildOfActor := true } } := by
  unfold CreateModeOfPlayRuleSet at hCreate
  cases hL : Mode.ModeRuleSets.lookup ModeOfPlay with
  | none =>
    rw [hL] at hCreate
    simp only [Option.some.injEq, Prod.mk.injEq] at hCreate
    exact Or.inl ⟨rfl, hCreate.1.symm⟩
  | some Configured =>
    rw [hL] at hCreate
    cases Configured with
    | Null => simp [TSubclassOfRuleSetBase.Get] at hCreate
    | Class Name =>
      simp only [TSubclassOfRuleSetBase.Get, if_true, Option.some.injEq, Prod.mk.injEq]
        at hCreate
      exact Or.inr ⟨Name, rfl, hCreate.1.symm⟩

/-- With a PF2 game state, a forced switch crashes exactly when creating the rule set
crashes. -/
theorem ForceSwitchModeOfPlay_crash (Mode : GameMode) (State : GameState)
    (NewModeOfPlay : EPF2ModeOfPlayType) (hState : Mode.GameState = some State) :
    ForceSwitchModeOfPlay Mode NewModeOfPlay = none
      ↔ Mode.ModeRuleSets.lookup NewModeOfPlay = some .Null := by
  rw [← CreateModeOfPlayRuleSet_crash]
  unfold ForceSwitchModeOfPlay
  rw [hState]
  rcases hC : CreateModeOfPlayRuleSet Mode NewModeOfPlay with _ | ⟨New, Created⟩
  · simp
  · rcases State with ⟨OldMode, OldRules⟩
    rcases New with _ | New <;> rcases OldRules with _ | Old <;> simp

/-- With a PF2 game state, a forced switch that does not crash leaves the requested mode
and the newly created rule set in the game state. -/
theorem ForceSwitchModeOfPlay_gameState (Mode Created : GameMode) (State : GameState)
    (NewModeOfPlay : EPF2ModeOfPlayType) (NewRuleSet : Option RuleSet)
    (hState : Mode.GameState = some State)
    (hCreate : CreateModeOfPlayRuleSet Mode NewModeOfPlay = some (NewRuleSet, Created)) :
    ∃ Switched, ForceSwitchModeOfPlay Mode NewModeOfPlay = some Switched
      ∧ Switched.GameState
          = some { ModeOfPlay := NewModeOfPlay, ModeOfPlayRuleSet := NewRuleSet } := by
  unfold ForceSwitchModeOfPlay
  rw [hState, hCreate]
  rcases State with ⟨OldMode, OldRules⟩
  rcases NewRuleSet with _ | New <;> rcases OldRules with _ | Old <;>
    simp [GameMode.Emit, GameState.SwitchModeOfPlay]

/-- Asking for the rule set only logs: it makes no call besides log lines and leaves
everything but the trace as it was. -/
theorem GetModeOfPlayRuleSet_logs_only (Mode : GameMode) :
    ∃ Logs, (GetModeOfPlayRuleSet Mode).2 = { Mode with Trace := Mode.Trace ++ Logs }
      ∧ ∀ e ∈ Logs, e.IsLog = true := by
  rcases Mode with ⟨Rules, _ | State, Next, Trace⟩
  · exact ⟨[.Log "LogPf2Core" .Error
      "Mode of Play Rule Set (MoPRS) support is not enabled because the current game state is not compatible with PF2."
      []], rfl, by simp [GameModeEvent.IsLog]⟩
  · exact ⟨[], by simp [GetModeOfPlayRuleSet], by simp⟩

/-- C8 refuted: with no rule set set, `AttemptToExecuteOrQueueCommand` does execute the
command: the call `AttemptExecuteImmediately` is made, so the request is not a no-op
besides logging. -/
theorem no_rule_set_command_still_executed :
    (GetModeOfPlayRuleSet SampleGameModeAtStart).1 = none
      ∧ GameModeEvent.AttemptExecuteImmediately SampleCommand
          ∈ NewEvents SampleGameModeAtStart
              (AttemptToExecuteOrQueueCommand SampleCollaborators SampleGameModeAtStart
                SampleCharacter SampleCommand).2
      ∧ ¬ (∀ e ∈ NewEvents SampleGameModeAtStart
              (AttemptToExecuteOrQueueCommand SampleCollaborators SampleGameModeAtStart
                SampleCharacter SampleCommand).2, e.IsLog = true) := by
  refine ⟨by decide, by decide, ?_⟩
  intro h
  exact absurd (h (.AttemptExecuteImmediately SampleCommand) (by decide)) (by decide)

/-- C8 as amended: when no mode-of-play rule set is set, `AddCharacterToEncounter` and
`RemoveCharacterFromEncounter` log an error and do nothing else, and
`AttemptToExecuteOrQueueCommand` logs an error, reaches no rule set, executes the command
immediately without queuing and returns the converted immediate result.  In all three
the game state, the configured rule sets and the object counter stay as they were. -/
theorem no_rule_set_fallback (Env : Collaborators ImmediateResult QueueResult)
    (Mode : GameMode) (Character : CharacterRef) (Command : CommandRef)
    (hNoRules : (GetModeOfPlayRuleSet Mode).1 = none) :
    ∃ Logs : List GameModeEvent, (∀ e ∈ Logs, e.IsLog = true)
      ∧ AddCharacterToEncounter Mode Character
          = { Mode with
              Trace := Mode.Trace ++ Logs ++
                [.Log "LogPf2CoreEncounters" .Error
                  "No MoPRS is set. Ignoring request to add character (%s) to encounter."
                  [Character.CharacterName]] }
      ∧ RemoveCharacterFromEncounter Mode Character
          = { Mode with
              Trace := Mode.Trace ++ Logs ++
                [.Log "LogPf2CoreEncounters" .Error
                  "No MoPRS is set. Ignoring request to remove character (%s) from encounter."
                  [Character.CharacterName]] }
      ∧ AttemptToExecuteOrQueueCommand Env Mode Character Command
          = (Env.ImmediateResultToExecuteOrQueueResult (Env.AttemptExecuteImmediately Command),
              { Mode with
                Trace := Mode.Trace ++ Logs ++
                  [.Log "LogPf2CoreEncounters" .Error
                    "No MoPRS is set. Performing command (%s) without queuing."
                    [Command.CommandLabel],
                   .AttemptExecuteImmediately Command] }) := by
  obtain ⟨Logs, hEq, hLogs⟩ := GetModeOfPlayRuleSet_logs_only Mode
  refine ⟨Logs, hLogs, ?_, ?_, ?_⟩
  · unfold AddCharacterToEncounter
    rcases hG : GetModeOfPlayRuleSet Mode with ⟨R, M⟩
    rw [hG] at hNoRules hEq
    simp only at hNoRules hEq
    subst hNoRules
    subst hEq
    simp [GameMode.Emit]
  · unfold RemoveCharacterFromEncounter
    rcases hG : GetModeOfPlayRuleSet Mode with ⟨R, M⟩
    rw [hG] at hNoRules hEq
    simp only at hNoRules hEq
    subst hNoRules
    subst hEq
    simp [GameMode.Emit]
  · unfold AttemptToExecuteOrQueueCommand
    rcases hG : GetModeOfPlayRuleSet Mode with ⟨R, M⟩
    rw [hG] at hNoRules hEq
    simp only at hNoRules hEq
    subst hNoRules
    subst hEq
    simp [GameMode.Emit]


/-- C8 as amended, on a game mode whose game state is not a PF2 game state: adding a
character leaves two error lines and nothing else. -/
theorem no_rule_set_fallback_witness :
    (GetModeOfPlayRuleSet SampleGameModeWithoutPf2State).1 = none
      ∧ ∃ Logs : List GameModeEvent, (∀ e ∈ Logs, e.IsLog = true)
          ∧ AddCharacterToEncounter SampleGameModeWithoutPf2State SampleCharacter
              = { SampleGameModeWithoutPf2State with
                  Trace := SampleGameModeWithoutPf2State.Trace ++ Logs ++
                    [.Log "LogPf2CoreEncounters" .Error
                      "No MoPRS is set. Ignoring request to add character (%s) to encounter."
                      [SampleCharacter.CharacterName]] } :=
  ⟨rfl,
    (no_rule_set_fallback SampleCollaborators SampleGameModeWithoutPf2State SampleCharacter
      SampleCommand rfl).imp fun _ h => ⟨h.1, h.2.1⟩⟩

/-- C9: when the current game state is not PF2-compatible, `AttemptModeOfPlaySwitch` and
`ForceSwitchModeOfPlay` change nothing for every requested mode (each returns having
only logged an error: no rule set is created, ended, destroyed or started, and there is
still no PF2 game state), and `GetModeOfPlayRuleSet` returns a script interface wrapping
null. -/
theorem incompatible_game_state_changes_nothing (Env : Collaborators ImmediateResult QueueResult)
    (Mode : GameMode) (NewModeOfPlay : EPF2ModeOfPlayType) (hState : Mode.GameState = none) :
    AttemptModeOfPlaySwitch Env Mode NewModeOfPlay
        = some { Mode with
            Trace := Mode.Trace ++
              [.Log "LogPf2Core" .Error
                "Cannot transition to new mode of play (%s) because current game state is not compatible with PF2."
                [NewModeOfPlay.ToString]] }
      ∧ ForceSwitchModeOfPlay Mode NewModeOfPlay
        = some { Mode with
            Trace := Mode.Trace ++
              [.Log "LogPf2Core" .Error
                "Cannot transition to new mode of play (%s) because current game state is not compatible with PF2."
                [NewModeOfPlay.ToString]] }
      ∧ (∃ Unchanged, AttemptModeOfPlaySwitch Env Mode NewModeOfPlay = some Unchanged
          ∧ ∀ e ∈ NewEvents Mode Unchanged, e.IsLog = true)
      ∧ (∃ Unchanged, ForceSwitchModeOfPlay Mode NewModeOfPlay = some Unchanged
          ∧ ∀ e ∈ NewEvents Mode Unchanged, e.IsLog = true)
      ∧ (GetModeOfPlayRuleSet Mode).1 = none := by
  have hA : AttemptModeOfPlaySwitch Env Mode NewModeOfPlay
        = some { Mode with
            Trace := Mode.Trace ++
              [.Log "LogPf2Core" .Error
                "Cannot transition to new mode of play (%s) because current game state is not compatible with PF2."
                [NewModeOfPlay.ToString]] } := by
    rcases Mode with ⟨Rules, Current, Next, Trace⟩
    simp only at hState
    subst hState
    rfl
  have hF : ForceSwitchModeOfPlay Mode NewModeOfPlay
        = some { Mode with
            Trace := Mode.Trace ++
              [.Log "LogPf2Core" .Error
                "Cannot transition to new mode of play (%s) because current game state is not compatible with PF2."
                [NewModeOfPlay.ToString]] } := by
    rcases Mode with ⟨Rules, Current, Next, Trace⟩
    simp only at hState
    subst hState
    rfl
  refine ⟨hA, hF, ⟨_, hA, ?_⟩, ⟨_, hF, ?_⟩, ?_⟩
  · simp [NewEvents, GameModeEvent.IsLog]
  · simp [NewEvents, GameModeEvent.IsLog]
  · unfold GetModeOfPlayRuleSet
    rw [hState]

/-- C9 on the sample game mode without a PF2 game state, asked for encounter mode. -/
theorem incompatible_game_state_changes_nothing_witness :
    SampleGameModeWithoutPf2State.GameState = none
      ∧ AttemptModeOfPlaySwitch SampleCollaborators SampleGameModeWithoutPf2State .Encounter
          = some { SampleGameModeWithoutPf2State with
              Trace := SampleGameModeWithoutPf2State.Trace ++
                [.Log "LogPf2Core" .Error
                  "Cannot transition to new mode of play (%s) because current game state is not compatible with PF2."
                  [EPF2ModeOfPlayType.Encounter.ToString]] }
      ∧ (GetModeOfPlayRuleSet SampleGameModeWithoutPf2State).1 = none :=
  ⟨rfl,
    (incompatible_game_state_changes_nothing SampleCollaborators
      SampleGameModeWithoutPf2State .Encounter rfl).1,
    (incompatible_game_state_changes_nothing SampleCollaborators
      SampleGameModeWithoutPf2State .Encounter rfl).2.2.2.2⟩

/-- When `BeginPlay` fails: with a PF2-compatible game state whose mode of play is
`None`, exactly when the map holds exploration with the null class. -/
theorem BeginPlay_crash (Env : Collaborators ImmediateResult QueueResult)
    (Mode : GameMode) (State : GameState) (hState : Mode.GameState = some State)
    (hNone : State.ModeOfPlay = EPF2ModeOfPlayType.None) :
    BeginPlay Env Mode = none ↔ Mode.ModeRuleSets.lookup .Exploration = some .Null := by
  have hS : (Mode.Emit .SuperBeginPlay).GameState = some State := hState
  have hB : BeginPlay Env Mode = ForceSwitchModeOfPlay (Mode.Emit .SuperBeginPlay) .Exploration := by
    unfold BeginPlay AttemptModeOfPlaySwitch
    rw [hS]
    simp [hNone]
  rw [hB, ForceSwitchModeOfPlay_crash (Mode.Emit .SuperBeginPlay) State .Exploration hS]
  rfl

/-- C10, where the code fails: a game mode whose map holds exploration with the null
class (an entry whose class was left unset), a PF2-compatible game state and the mode of
play `None`.  `BeginPlay` does not end with the game state in exploration: it does not
return, for `CreateModeOfPlayRuleSet` finds the key in the map and calls `IsChildOf` on
the null class.  So for every such game mode, and for the sample one. -/
theorem begin_play_crashes_on_null_class :
    (∀ (Env : Collaborators ImmediateResult QueueResult)
        (Rest : List (EPF2ModeOfPlayType × TSubclassOfRuleSetBase)) (Loaded : Option RuleSet)
        (NextObjectId : Nat) (Trace : List GameModeEvent),
        BeginPlay Env
            { ModeRuleSets := (.Exploration, .Null) :: Rest
              GameState := some { ModeOfPlay := .None, ModeOfPlayRuleSet := Loaded }
              NextObjectId := NextObjectId
              Trace := Trace }
          = none)
      ∧ SampleGameModeWithNullClass.GameState
          = some { ModeOfPlay := .None, ModeOfPlayRuleSet := none }
      ∧ SampleGameModeWithNullClass.ModeRuleSets.lookup .Exploration = some .Null
      ∧ BeginPlay SampleCollaborators SampleGameModeWithNullClass = none := by
  refine ⟨?_, rfl, rfl, ?_⟩
  · intro Env Rest Loaded NextObjectId Trace
    exact (BeginPlay_crash Env _ _ rfl rfl).mpr rfl
  · exact (BeginPlay_crash SampleCollaborators _ _ rfl rfl).mpr rfl

end ModeSwitch

/-! ### Character level -/

/-- Clearing redundant boost abilities does not touch the character level. -/
theorem RemoveRedundantPendingAbilityBoosts_level (Self : Character) :
    (RemoveRedundantPendingAbilityBoosts Self).CharacterLevel = Self.CharacterLevel := by
  have hFold : ∀ (Selections : List String) (Start : Character),
      (Selections.foldl
        (fun (Self : Character) BoostGa =>
          if BoostGa ∈ Self.AbilitySystemComponent.Abilities then
            { Self with
              AbilitySystemComponent :=
                { Self.AbilitySystemComponent with
                  Abilities := Self.AbilitySystemComponent.Abilities.erase BoostGa }
              Trace := Self.Trace ++ [.ClearAbility BoostGa] }
          else
            Self)
        Start).CharacterLevel = Start.CharacterLevel := by
    intro Selections
    induction Selections with
    | nil => intro Start; rfl
    | cons BoostGa Rest ih =>
      intro Start
      rw [List.foldl_cons, ih]
      split <;> rfl
  unfold RemoveRedundantPendingAbilityBoosts
  split
  · exact hFold _ _
  · rfl

/-- Activating the passive gameplay effects does not touch the character level. -/
theorem ActivatePassiveGameplayEffects_level (Groups : WeightGroups) (Self : Character) :
    (ActivatePassiveGameplayEffects Groups Self).CharacterLevel = Self.CharacterLevel := by
  unfold ActivatePassiveGameplayEffects
  split
  · rw [RemoveRedundantPendingAbilityBoosts_level]
    simp only [ApplyDynamicTags, PopulatePassiveGameplayEffects,
      GenerateManagedPassiveGameplayEffects]
    split <;> rfl
  · rfl

/-- The level a character has after `HandleCharacterLevelChanged` is the `float`
argument converted to `int32`. -/
theorem HandleCharacterLevelChanged_level (Groups : WeightGroups) (Self : Character)
    (OldLevel NewLevel : Int) :
    GetCharacterLevel (HandleCharacterLevelChanged Groups Self OldLevel NewLevel)
      = floatToInt32 NewLevel := by
  unfold HandleCharacterLevelChanged GetCharacterLevel
  rw [ActivatePassiveGameplayEffects_level]

/-- Integers of magnitude below `2 ^ 24` are single-precision floats. -/
theorem int32ToFloat_exact (Value : Int) (hSmall : Value.natAbs < 2 ^ 24) :
    int32ToFloat Value = Value := by
  have hUlp : float32Ulp Value.natAbs = 1 := by
    unfold float32Ulp
    rw [if_pos hSmall]
  simp only [int32ToFloat, hUlp]
  simp [Nat.mod_one, Int.sign_mul_abs]

/-- C4: `SetCharacterLevel(NewLevel)` returns true if and only if `NewLevel > 0` and
`NewLevel` differs from the current character level; when it returns false the character
is exactly as before: its level is unchanged, its ability system component is untouched
(passive gameplay effects are neither deactivated nor re-activated) and no call is made,
so `OnCharacterLevelChanged` is not fired. -/
theorem set_character_level_result (Groups : WeightGroups) (Self : Character) (NewLevel : Int) :
    ((SetCharacterLevel Groups Self NewLevel).1 = true
        ↔ (NewLevel > 0 ∧ NewLevel ≠ GetCharacterLevel Self))
      ∧ ((SetCharacterLevel Groups Self NewLevel).1 = false →
          (SetCharacterLevel Groups Self NewLevel).2 = Self
            ∧ GetCharacterLevel (SetCharacterLevel Groups Self NewLevel).2 = GetCharacterLevel Self
            ∧ (SetCharacterLevel Groups Self NewLevel).2.AbilitySystemComponent
                = Self.AbilitySystemComponent
            ∧ (SetCharacterLevel Groups Self NewLevel).2.Trace = Self.Trace) := by
  unfold SetCharacterLevel GetCharacterLevel
  by_cases h : Self.CharacterLevel ≠ NewLevel ∧ NewLevel > 0
  · rw [if_pos h]
    exact ⟨⟨fun _ => ⟨h.2, fun e => h.1 e.symm⟩, fun _ => rfl⟩, fun hF => by simp at hF⟩
  · rw [if_neg h]
    exact ⟨⟨fun hT => by simp at hT, fun hT => absurd ⟨fun e => hT.2 e.symm, hT.1⟩ h⟩,
      fun _ => ⟨rfl, rfl, rfl, rfl⟩⟩

/-- C4 on the sample character: level 0 is refused and nothing changes. -/
theorem set_character_level_result_witness :
    (SetCharacterLevel SampleWeightGroups SampleCharacterBase 0).1 = false
      ∧ (SetCharacterLevel SampleWeightGroups SampleCharacterBase 0).2 = SampleCharacterBase :=
  ⟨by decide,
    ((set_character_level_result SampleWeightGroups SampleCharacterBase 0).2 (by decide)).1⟩

/-- C5 refuted: the `int32` level `2 ^ 24 + 1` is positive and differs from the current
level 1, `SetCharacterLevel` returns true, and the level read back is `2 ^ 24`. -/
theorem set_character_level_not_exact :
    (0 : Int) < 16777217 ∧ (16777217 : Int) < 2 ^ 31
      ∧ (16777217 : Int) ≠ GetCharacterLevel SampleCharacterBase
      ∧ (SetCharacterLevel SampleWeightGroups SampleCharacterBase 16777217).1 = true
      ∧ GetCharacterLevel (SetCharacterLevel SampleWeightGroups SampleCharacterBase 16777217).2
          = 16777216
      ∧ GetCharacterLevel (SetCharacterLevel SampleWeightGroups SampleCharacterBase 16777217).2
          ≠ 16777217 := by
  decide

/-- C5 as amended: for every `NewLevel` with `0 < NewLevel ≤ 2 ^ 24` that differs from
the current level, `SetCharacterLevel(NewLevel)` returns true and `GetCharacterLevel()`
then returns exactly `NewLevel`. -/
theorem set_character_level_exact (Groups : WeightGroups) (Self : Character) (NewLevel : Int)
    (hPos : 0 < NewLevel) (hRange : NewLevel ≤ 2 ^ 24)
    (hDiff : NewLevel ≠ GetCharacterLevel Self) :
    (SetCharacterLevel Groups Self NewLevel).1 = true
      ∧ GetCharacterLevel (SetCharacterLevel Groups Self NewLevel).2 = NewLevel := by
  have hCond : Self.CharacterLevel ≠ NewLevel ∧ NewLevel > 0 := ⟨fun e => hDiff e.symm, hPos⟩
  have hFloat : int32ToFloat NewLevel = NewLevel := by
    rcases lt_or_eq_of_le hRange with hLt | hEq
    · exact int32ToFloat_exact NewLevel (by omega)
    · subst hEq; decide
  unfold SetCharacterLevel
  rw [if_pos hCond]
  refine ⟨rfl, ?_⟩
  rw [HandleCharacterLevelChanged_level, hFloat]
  unfold floatToInt32
  have hIn : -(2 ^ 31 : Int) ≤ NewLevel ∧ NewLevel < 2 ^ 31 := by omega
  rw [if_pos hIn]

/-- C5 as amended, on the sample character raised to level 2. -/
theorem set_character_level_exact_witness :
    ((0 : Int) < 2 ∧ (2 : Int) ≤ 2 ^ 24 ∧ (2 : Int) ≠ GetCharacterLevel SampleCharacterBase)
      ∧ (SetCharacterLevel SampleWeightGroups SampleCharacterBase 2).1 = true
      ∧ GetCharacterLevel (SetCharacterLevel SampleWeightGroups SampleCharacterBase 2).2 = 2 :=
  ⟨by decide,
    set_character_level_exact SampleWeightGroups SampleCharacterBase 2 (by decide) (by decide)
      (by decide)⟩

/-! ### Armor class -/

/-- A container that has a tag below `Parent ++ Rest` has a tag below `Parent`. -/
theorem HasTag_parent (Tags : List FGameplayTag) (Parent Rest : FGameplayTag)
    (hChild : HasTag Tags (Parent ++ Rest) = true) : HasTag Tags Parent = true := by
  unfold HasTag at *
  rw [List.any_eq_true] at *
  obtain ⟨Tag, hMem, hPre⟩ := hChild
  refine ⟨Tag, hMem, ?_⟩
  rw [List.isPrefixOf_iff_prefix] at *
  exact (List.prefix_append Parent Rest).trans hPre

/-- The armor type read off the source tags: heavy before medium before light, and
unarmored when no tag of an equipped armor category is present. -/
theorem DetermineArmorType_eq (SourceTags : List FGameplayTag) :
    DetermineArmorType SourceTags
      = if HasTag SourceTags ["Armor", "Equipped", "Heavy"] then "Heavy"
        else if HasTag SourceTags ["Armor", "Equipped", "Medium"] then "Medium"
        else if HasTag SourceTags ["Armor", "Equipped", "Light"] then "Light"
        else "Unarmored" := by
  unfold DetermineArmorType
  by_cases hE : HasTag SourceTags ["Armor", "Equipped"] = true
  · simp only [hE, if_true]
  · have hNot : ∀ Category : String,
        HasTag SourceTags ["Armor", "Equipped", Category] = false := by
      intro Category
      by_contra hC
      exact hE (HasTag_parent SourceTags ["Armor", "Equipped"] [Category] (by simpa using hC))
    simp [hE, hNot]

/-- The captured Dexterity modifier, 0 if the spec captured none. -/
theorem GetDexterityModifier_eq (Spec : FGameplayEffectSpec) :
    GetDexterityModifier Spec
      = (Spec.CapturedAttributes.lookup "AbDexterityModifier").getD 0 := by
  unfold GetDexterityModifier GetCapturedAttributeMagnitude DexterityModifierCaptureDefinition
  cases Spec.CapturedAttributes.lookup "AbDexterityModifier" <;> rfl

/-- An integer rounds to itself. -/
theorem RoundHalfEven_intCast (k : ℤ) : RoundHalfEven (k : ℚ) = k := by
  unfold RoundHalfEven
  simp

/-- A number that is a whole multiple of the unit in its last place is a `float`. -/
theorem RoundToFloat_of_quotient (Value : ℚ) (k : ℤ)
    (hQuotient : Value / 2 ^ (Int.log 2 |Value| - 23) = (k : ℚ)) :
    RoundToFloat Value = Value := by
  unfold RoundToFloat
  by_cases h0 : Value = 0
  · simp [h0]
  · rw [if_neg h0]
    simp only
    rw [hQuotient, RoundHalfEven_intCast, ← hQuotient]
    have hUlp : (2 : ℚ) ^ (Int.log 2 |Value| - 23) ≠ 0 := zpow_ne_zero _ (by norm_num)
    field_simp

/-- Every integer up to `2 ^ 24` in absolute value is a `float`. -/
theorem RoundToFloat_intCast (n : ℤ) (hBound : |n| ≤ 2 ^ 24) : RoundToFloat (n : ℚ) = n := by
  by_cases h0 : n = 0
  · simp [h0, RoundToFloat]
  have hAbs : |(n : ℚ)| = ((n.natAbs : ℕ) : ℚ) := by
    rw [← Int.cast_abs, Int.abs_eq_natAbs, Int.cast_natCast]
  have hLog : Int.log 2 |(n : ℚ)| = Nat.log 2 n.natAbs := by rw [hAbs, Int.log_natCast]
  have hPos : 0 < n.natAbs := Int.natAbs_pos.mpr h0
  have hLe : n.natAbs ≤ 2 ^ 24 := by
    have := hBound
    rw [Int.abs_eq_natAbs] at this
    exact_mod_cast this
  rcases Nat.lt_or_eq_of_le hLe with hLt | hEq
  · have hE : Nat.log 2 n.natAbs < 24 := Nat.log_lt_of_lt_pow (by omega) hLt
    obtain ⟨d, hd⟩ : ∃ d : ℕ, Nat.log 2 n.natAbs + d = 23 := ⟨23 - Nat.log 2 n.natAbs, by omega⟩
    apply RoundToFloat_of_quotient (n : ℚ) (n * 2 ^ d)
    rw [hLog]
    have : ((Nat.log 2 n.natAbs : ℕ) : ℤ) - 23 = -(d : ℤ) := by omega
    rw [this, zpow_neg, zpow_natCast]
    push_cast
    field_simp
  · apply RoundToFloat_of_quotient (n : ℚ) (n / 2)
    rw [hLog, hEq]
    have hL : Nat.log 2 (2 ^ 24) = 24 := Nat.log_pow (by norm_num) 24
    rw [hL]
    have hn : n = 2 ^ 24 ∨ n = -(2 ^ 24) := by
      have := Int.natAbs_eq n
      rw [hEq] at this
      push_cast at this
      exact this
    rcases hn with h | h <;> subst h <;> norm_num

/-- The sum of two whole `float`s is exact while it stays within `2 ^ 24`. -/
theorem FloatAdd_intCast (a b : ℤ) (hBound : |a + b| ≤ 2 ^ 24) :
    FloatAdd (a : ℚ) (b : ℚ) = ((a + b : ℤ) : ℚ) := by
  unfold FloatAdd
  rw [← Int.cast_add]
  exact RoundToFloat_intCast (a + b) hBound

/-- Above `2 ^ 24` a `float` holds even numbers only: 16777229 rounds to 16777228. -/
theorem RoundToFloat_16777229 : RoundToFloat 16777229 = 16777228 := by
  have hLog : Int.log 2 |(16777229 : ℚ)| = 24 := by
    have : |(16777229 : ℚ)| = ((16777229 : ℕ) : ℚ) := by norm_num
    rw [this, Int.log_natCast]
    have : Nat.log 2 16777229 = 24 :=
      Nat.log_eq_of_pow_le_of_lt_pow (by norm_num) (by norm_num)
    rw [this]
    rfl
  unfold RoundToFloat
  rw [if_neg (by norm_num), hLog]
  have hF : ⌊(16777229 : ℚ) / 2⌋ = 8388614 := by
    rw [Int.floor_eq_iff]
    constructor <;> norm_num
  simp only [RoundHalfEven]
  norm_num [hF]

/-- The armor class of a spec whose Dexterity modifier and proficiency bonus are whole
numbers and whose sums stay within `2 ^ 24`: both additions are exact. -/
theorem CalculateBaseMagnitude_Implementation_exact
    (CalculateProficiencyBonus : String → FGameplayEffectSpec → ℚ) (Spec : FGameplayEffectSpec)
    (Dexterity Bonus : ℤ)
    (hDexterity : GetDexterityModifier Spec = (Dexterity : ℚ))
    (hBonus : CalculateProficiencyBonus
        ("Armor.Category." ++ DetermineArmorType Spec.CapturedSourceTags) Spec = (Bonus : ℚ))
    (hFirst : |10 + Dexterity| ≤ 2 ^ 24) (hSecond : |10 + Dexterity + Bonus| ≤ 2 ^ 24) :
    CalculateBaseMagnitude_Implementation CalculateProficiencyBonus Spec
      = 10 + (Dexterity : ℚ) + (Bonus : ℚ) := by
  unfold CalculateBaseMagnitude_Implementation CalculateArmorTypeProficiencyBonus
  simp only [hDexterity, hBonus]
  have hTen : (10 : ℚ) = ((10 : ℤ) : ℚ) := by norm_num
  rw [hTen, FloatAdd_intCast 10 Dexterity hFirst, FloatAdd_intCast (10 + Dexterity) Bonus hSecond]
  push_cast
  ring

/-- The sample heavy armor is heavy armor, whatever the Dexterity modifier. -/
theorem SampleHeavyArmorSpec_bonus (DexterityModifier : ℚ) :
    SampleProficiencyBonus
        ("Armor.Category."
          ++ DetermineArmorType (SampleHeavyArmorSpec DexterityModifier).CapturedSourceTags)
        (SampleHeavyArmorSpec DexterityModifier)
      = 3 := by
  have hType : DetermineArmorType (SampleHeavyArmorSpec DexterityModifier).CapturedSourceTags
      = "Heavy" := by
    show DetermineArmorType [["Armor", "Equipped", "Heavy", "FullPlate"], ["Trait", "Human"]]
      = "Heavy"
    decide
  have hName : "Armor.Category." ++ "Heavy" = "Armor.Category.Heavy" := by decide
  rw [hType, hName]
  simp [SampleProficiencyBonus]

/-- The sample heavy armor spec captured the Dexterity modifier it was made with. -/
theorem SampleHeavyArmorSpec_dexterity (DexterityModifier : ℚ) :
    GetDexterityModifier (SampleHeavyArmorSpec DexterityModifier) = DexterityModifier := by
  rw [GetDexterityModifier_eq]
  simp [SampleHeavyArmorSpec, List.lookup]

/-- C6, where the claim fails: with a captured Dexterity modifier of `2 ^ 24` in heavy
armor with proficiency bonus 3, the code returns 16777228, while 10 + the Dexterity
modifier + the proficiency bonus is 16777229: the sum is made in `float`, which cannot
hold 16777229. -/
theorem armor_class_sum_is_rounded :
    CalculateBaseMagnitude_Implementation SampleProficiencyBonus
        (SampleHeavyArmorSpec 16777216) = 16777228
      ∧ 10 + GetDexterityModifier (SampleHeavyArmorSpec 16777216)
          + SampleProficiencyBonus
              ("Armor.Category."
                ++ DetermineArmorType (SampleHeavyArmorSpec 16777216).CapturedSourceTags)
              (SampleHeavyArmorSpec 16777216)
        = 16777229
      ∧ CalculateBaseMagnitude_Implementation SampleProficiencyBonus
          (SampleHeavyArmorSpec 16777216)
        ≠ 10 + GetDexterityModifier (SampleHeavyArmorSpec 16777216)
            + SampleProficiencyBonus
                ("Armor.Category."
                  ++ DetermineArmorType (SampleHeavyArmorSpec 16777216).CapturedSourceTags)
                (SampleHeavyArmorSpec 16777216) := by
  have hCode : CalculateBaseMagnitude_Implementation SampleProficiencyBonus
      (SampleHeavyArmorSpec 16777216) = 16777228 := by
    unfold CalculateBaseMagnitude_Implementation CalculateArmorTypeProficiencyBonus
    simp only [SampleHeavyArmorSpec_bonus, SampleHeavyArmorSpec_dexterity]
    have hFirst : FloatAdd 10 16777216 = 16777226 := by
      have hLog : Int.log 2 |(16777226 : ℚ)| = 24 := by
        have : |(16777226 : ℚ)| = ((16777226 : ℕ) : ℚ) := by norm_num
        rw [this, Int.log_natCast]
        have : Nat.log 2 16777226 = 24 :=
          Nat.log_eq_of_pow_le_of_lt_pow (by norm_num) (by norm_num)
        rw [this]
        rfl
      unfold FloatAdd
      norm_num
      apply RoundToFloat_of_quotient 16777226 8388613
      rw [hLog]
      norm_num
    rw [hFirst]
    unfold FloatAdd
    norm_num
    exact RoundToFloat_16777229
  have hExact : 10 + GetDexterityModifier (SampleHeavyArmorSpec 16777216)
      + SampleProficiencyBonus
          ("Armor.Category."
            ++ DetermineArmorType (SampleHeavyArmorSpec 16777216).CapturedSourceTags)
          (SampleHeavyArmorSpec 16777216)
      = 16777229 := by
    rw [SampleHeavyArmorSpec_bonus, SampleHeavyArmorSpec_dexterity]
    norm_num
  refine ⟨hCode, hExact, ?_⟩
  rw [hCode, hExact]
  norm_num

/-- C6 as amended: for every gameplay-effect spec whose captured Dexterity modifier `d`
(0 if none was captured) and whose proficiency bonus `b` for the armor type determined
from the source tags (heavy, else medium, else light, else unarmored) are whole numbers
with `|10 + d| ≤ 2 ^ 24` and `|10 + d + b| ≤ 2 ^ 24`, the armor class base magnitude is
exactly `10 + d + b`. -/
theorem armor_class_base_magnitude
    (CalculateProficiencyBonus : String → FGameplayEffectSpec → ℚ) (Spec : FGameplayEffectSpec)
    (Dexterity Bonus : ℤ)
    (hDexterity : GetDexterityModifier Spec = (Dexterity : ℚ))
    (hBonus : CalculateProficiencyBonus
        ("Armor.Category." ++ DetermineArmorType Spec.CapturedSourceTags) Spec = (Bonus : ℚ))
    (hFirst : |10 + Dexterity| ≤ 2 ^ 24) (hSecond : |10 + Dexterity + Bonus| ≤ 2 ^ 24) :
    CalculateBaseMagnitude_Implementation CalculateProficiencyBonus Spec
        = 10 + GetDexterityModifier Spec
            + CalculateProficiencyBonus
                ("Armor.Category." ++ DetermineArmorType Spec.CapturedSourceTags) Spec
      ∧ GetDexterityModifier Spec
          = (Spec.CapturedAttributes.lookup "AbDexterityModifier").getD 0
      ∧ DetermineArmorType Spec.CapturedSourceTags
          = (if HasTag Spec.CapturedSourceTags ["Armor", "Equipped", "Heavy"] then "Heavy"
             else if HasTag Spec.CapturedSourceTags ["Armor", "Equipped", "Medium"] then "Medium"
             else if HasTag Spec.CapturedSourceTags ["Armor", "Equipped", "Light"] then "Light"
             else "Unarmored") := by
  refine ⟨?_, GetDexterityModifier_eq Spec, DetermineArmorType_eq _⟩
  rw [CalculateBaseMagnitude_Implementation_exact CalculateProficiencyBonus Spec Dexterity Bonus
    hDexterity hBonus hFirst hSecond, hDexterity, hBonus]

/-- C6 as amended, on a character in heavy armor with Dexterity modifier 4 and
proficiency bonus 3: the armor class is 17. -/
theorem armor_class_base_magnitude_witness :
    GetDexterityModifier (SampleHeavyArmorSpec 4) = ((4 : ℤ) : ℚ)
      ∧ CalculateBaseMagnitude_Implementation SampleProficiencyBonus (SampleHeavyArmorSpec 4)
          = 10 + GetDexterityModifier (SampleHeavyArmorSpec 4)
              + SampleProficiencyBonus
                  ("Armor.Category."
                    ++ DetermineArmorType (SampleHeavyArmorSpec 4).CapturedSourceTags)
                  (SampleHeavyArmorSpec 4)
      ∧ CalculateBaseMagnitude_Implementation SampleProficiencyBonus (SampleHeavyArmorSpec 4)
          = 17 := by
  have hDexterity : GetDexterityModifier (SampleHeavyArmorSpec 4) = ((4 : ℤ) : ℚ) := by
    rw [SampleHeavyArmorSpec_dexterity]
    norm_num
  have hBonus : SampleProficiencyBonus
      ("Armor.Category." ++ DetermineArmorType (SampleHeavyArmorSpec 4).CapturedSourceTags)
      (SampleHeavyArmorSpec 4) = ((3 : ℤ) : ℚ) := by
    rw [SampleHeavyArmorSpec_bonus]
    norm_num
  have h := (armor_class_base_magnitude SampleProficiencyBonus (SampleHeavyArmorSpec 4) 4 3
    hDexterity hBonus (by norm_num) (by norm_num)).1
  refine ⟨hDexterity, h, ?_⟩
  rw [h, hDexterity, hBonus]
  norm_num

/-- Whatever the armor and the proficiency, a captured Dexterity modifier within the
whole numbers a `float` holds enters the armor class in full: two specs that differ only
in that modifier differ by as much in armor class. -/
theorem armor_class_follows_dexterity
    (CalculateProficiencyBonus : String → FGameplayEffectSpec → ℚ)
    (Low High : FGameplayEffectSpec) (DexterityLow DexterityHigh Bonus : ℤ)
    (hSource : High.CapturedSourceTags = Low.CapturedSourceTags)
    (hBonus : ∀ Category, CalculateProficiencyBonus Category High
        = CalculateProficiencyBonus Category Low)
    (hLow : GetDexterityModifier Low = (DexterityLow : ℚ))
    (hHigh : GetDexterityModifier High = (DexterityHigh : ℚ))
    (hWhole : CalculateProficiencyBonus
        ("Armor.Category." ++ DetermineArmorType Low.CapturedSourceTags) Low = (Bonus : ℚ))
    (hLowFirst : |10 + DexterityLow| ≤ 2 ^ 24)
    (hLowSecond : |10 + DexterityLow + Bonus| ≤ 2 ^ 24)
    (hHighFirst : |10 + DexterityHigh| ≤ 2 ^ 24)
    (hHighSecond : |10 + DexterityHigh + Bonus| ≤ 2 ^ 24) :
    CalculateBaseMagnitude_Implementation CalculateProficiencyBonus High
        - CalculateBaseMagnitude_Implementation CalculateProficiencyBonus Low
      = GetDexterityModifier High - GetDexterityModifier Low := by
  rw [CalculateBaseMagnitude_Implementation_exact CalculateProficiencyBonus Low DexterityLow Bonus
      hLow hWhole hLowFirst hLowSecond,
    CalculateBaseMagnitude_Implementation_exact CalculateProficiencyBonus High DexterityHigh Bonus
      hHigh (by rw [hSource, hBonus]; exact hWhole) hHighFirst hHighSecond, hLow, hHigh]
  ring

/-- C7, the code at the failing input: in full plate (heavy armor) with the same
proficiency, a Dexterity modifier of 5 gives armor class 18 and one of 6 gives 19, so
the modifier is counted beyond any Dex Cap of the armor. -/
theorem armor_class_ignores_dex_cap :
    DetermineArmorType (SampleHeavyArmorSpec 5).CapturedSourceTags = "Heavy"
      ∧ CalculateBaseMagnitude_Implementation SampleProficiencyBonus (SampleHeavyArmorSpec 5) = 18
      ∧ CalculateBaseMagnitude_Implementation SampleProficiencyBonus (SampleHeavyArmorSpec 6) = 19 := by
  have hType : ∀ d : ℚ,
      DetermineArmorType (SampleHeavyArmorSpec d).CapturedSourceTags = "Heavy" := by
    intro d
    show DetermineArmorType [["Armor", "Equipped", "Heavy", "FullPlate"], ["Trait", "Human"]]
      = "Heavy"
    decide
  have hSum : ∀ d : ℤ, |10 + d| ≤ 2 ^ 24 → |10 + d + 3| ≤ 2 ^ 24 →
      CalculateBaseMagnitude_Implementation SampleProficiencyBonus (SampleHeavyArmorSpec (d : ℚ))
        = 10 + (d : ℚ) + ((3 : ℤ) : ℚ) := by
    intro d hFirst hSecond
    exact CalculateBaseMagnitude_Implementation_exact SampleProficiencyBonus
      (SampleHeavyArmorSpec (d : ℚ)) d 3 (SampleHeavyArmorSpec_dexterity _)
      (by rw [SampleHeavyArmorSpec_bonus]; norm_num) hFirst hSecond
  refine ⟨hType 5, ?_, ?_⟩
  · have h := hSum 5 (by norm_num) (by norm_num)
    norm_num at h
    exact h
  · have h := hSum 6 (by norm_num) (by norm_num)
    norm_num at h
    exact h

/-! ### Queued actions -/

/-- Destroying a task that was activated makes no call. -/
theorem OnDestroy_activated (Self : WaitForInitiativeTurnTask) (bAbilityEnded : Bool)
    (hActivated : WasActivated Self = true) : OnDestroy Self bAbilityEnded = Self := by
  unfold OnDestroy
  rcases Self.WaitingCharacter with _ | Character <;> rcases Self.GameMode with _ | Mode <;>
    simp [hActivated]

/-- Ending a task never broadcasts `OnQueued`; it only appends calls, and none at all if
the task was activated. -/
theorem EndTask_trace (Self : WaitForInitiativeTurnTask) :
    ∃ Events, (EndTask Self).Trace = Self.Trace ++ Events
      ∧ TaskEvent.OnQueued ∉ Events
      ∧ (WasActivated Self = true → Events = [])
      ∧ (EndTask Self).ActivationOutcome = Self.ActivationOutcome := by
  unfold EndTask
  by_cases hF : Self.bFinished = true
  · exact ⟨[], by simp [hF], by simp, fun _ => rfl, by simp [hF]⟩
  · by_cases hK : Self.bIsPendingKill = true
    · exact ⟨[], by simp [hF, hK], by simp, fun _ => rfl, by simp [hF, hK]⟩
    · simp only [hF, hK, Bool.not_false, if_true]
      by_cases hA : WasActivated Self = true
      · rw [OnDestroy_activated Self false hA]
        exact ⟨[], by simp, by simp, fun _ => rfl, by simp⟩
      · unfold OnDestroy
        rcases Self.WaitingCharacter with _ | Character <;>
          rcases Self.GameMode with _ | Mode
        · exact ⟨[], by simp, by simp, fun _ => rfl, by simp⟩
        · exact ⟨[], by simp, by simp, fun _ => rfl, by simp⟩
        · exact ⟨[], by simp, by simp, fun _ => rfl, by simp⟩
        · exact ⟨[.CancelActionQueuedForInitiativeTurn Mode Character],
            by simp [hA, WaitForInitiativeTurnTask.Emit], by simp,
            fun h => absurd h hA, by simp [hA, WaitForInitiativeTurnTask.Emit]⟩

/-- Ending a task leaves its activation outcome alone. -/
theorem EndTask_outcome (Self : WaitForInitiativeTurnTask) :
    (EndTask Self).ActivationOutcome = Self.ActivationOutcome :=
  (EndTask_trace Self).choose_spec.2.2.2

/-- Ending a task that was activated makes no call. -/
theorem EndTask_activated (Self : WaitForInitiativeTurnTask)
    (hActivated : Self.ActivationOutcome = EPF2AbilityActivationResult.Activated) :
    (EndTask Self).Trace = Self.Trace := by
  obtain ⟨Events, hT, -, hNil, -⟩ := EndTask_trace Self
  rw [hT, hNil (by simp [WasActivated, hActivated]), List.append_nil]

/-- Cancelling a task never broadcasts `OnQueued`, and does nothing to a task that was
activated. -/
theorem CancelAction_trace (Self : WaitForInitiativeTurnTask) :
    ∃ Events, (CancelAction Self).Trace = Self.Trace ++ Events
      ∧ TaskEvent.OnQueued ∉ Events
      ∧ (WasActivated Self = true → CancelAction Self = Self) := by
  unfold CancelAction ExternalCancel
  by_cases hA : WasActivated Self = true
  · exact ⟨[], by simp [hA], by simp, fun _ => by simp [hA]⟩
  · simp only [hA, Bool.not_false, if_true]
    by_cases hB : Self.bShouldBroadcastAbilityTaskDelegates = true
    · obtain ⟨Events, hT, hQ, -, -⟩ := EndTask_trace (Self.Emit .OnCancelled)
      refine ⟨.OnCancelled :: Events, ?_, ?_, fun h => by simp at h⟩
      · simp only [hB, if_true]
        rw [hT]
        simp [WaitForInitiativeTurnTask.Emit]
      · simp [hQ]
    · obtain ⟨Events, hT, hQ, -, -⟩ := EndTask_trace Self
      exact ⟨Events, by simp [hB, hT], hQ, fun h => by simp at h⟩

/-- Performing the action never broadcasts `OnQueued` and never asks the game mode to
take the action out of its queue; a task with an ability that is not pending kill has
the outcome `Activated` afterwards. -/
theorem PerformAction_trace (Self : WaitForInitiativeTurnTask) :
    ∃ Events, (PerformAction Self).2.Trace = Self.Trace ++ Events
      ∧ TaskEvent.OnQueued ∉ Events
      ∧ (∀ e ∈ Events, e.IsCancelQueued = false)
      ∧ (PerformAction Self).2.ActivationOutcome = (PerformAction Self).1
      ∧ (HasAbility Self = true → Self.bIsPendingKill = false →
          (PerformAction Self).1 = EPF2AbilityActivationResult.Activated) := by
  unfold PerformAction
  by_cases hG : (HasAbility Self && !Self.bIsPendingKill && !WasActivated Self) = true
  · rw [if_pos hG]
    simp only [EndTask_outcome]
    rw [EndTask_activated _ rfl]
    by_cases hB : Self.bShouldBroadcastAbilityTaskDelegates = true <;>
      by_cases hR : Self.bIsForRemoteClient = true <;>
      by_cases hC : Self.bHasAsc = true <;>
      simp [hB, hR, hC, SetShouldBlockOtherAbilities, WaitForInitiativeTurnTask.Emit, HasAsc,
        TaskEvent.IsCancelQueued]
  · rw [if_neg hG]
    refine ⟨[], by simp, by simp, by simp, rfl, fun hA hK => ?_⟩
    simp only [hA, hK, Bool.not_false, Bool.true_and, Bool.not_eq_true', WasActivated,
      Bool.not_eq_false', beq_iff_eq] at hG
    simpa using hG

/-- C11: a queued action does not remove itself from the queue when performed.  A task
with an ability that is not pending kill ends `PerformAction` with the outcome
`Activated`; and whenever `PerformAction` returns `Activated`, neither the call itself
(which ends the task through `EndTask` and `OnDestroy`) nor any later `OnDestroy`,
`EndTask` or `CancelAction` calls `CancelActionQueuedForInitiativeTurn` on the game
mode: the later calls make no call at all. -/
theorem performed_action_stays_in_queue (Self : WaitForInitiativeTurnTask) :
    (HasAbility Self = true → Self.bIsPendingKill = false →
        (PerformAction Self).1 = EPF2AbilityActivationResult.Activated)
      ∧ ((PerformAction Self).1 = EPF2AbilityActivationResult.Activated →
          (∀ e ∈ NewTaskEvents Self (PerformAction Self).2, e.IsCancelQueued = false)
            ∧ (∀ bAbilityEnded,
                OnDestroy (PerformAction Self).2 bAbilityEnded = (PerformAction Self).2)
            ∧ (EndTask (PerformAction Self).2).Trace = (PerformAction Self).2.Trace
            ∧ CancelAction (PerformAction Self).2 = (PerformAction Self).2) := by
  obtain ⟨Events, hT, -, hC, hO, hA⟩ := PerformAction_trace Self
  refine ⟨hA, fun hActivated => ?_⟩
  have hOutcome : (PerformAction Self).2.ActivationOutcome
      = EPF2AbilityActivationResult.Activated := hO.trans hActivated
  have hWas : WasActivated (PerformAction Self).2 = true := by
    simp [WasActivated, hOutcome]
  refine ⟨?_, fun b => OnDestroy_activated _ b hWas, EndTask_activated _ hOutcome, ?_⟩
  · rw [NewTaskEvents, hT, List.drop_left]
    exact hC
  · obtain ⟨-, -, -, hSame⟩ := CancelAction_trace (PerformAction Self).2
    exact hSame hWas

/-- C11 on the sample task after the game mode queued it. -/
theorem performed_action_stays_in_queue_witness :
    (PerformAction SampleQueuedTask).1 = EPF2AbilityActivationResult.Activated
      ∧ (∀ e ∈ NewTaskEvents SampleQueuedTask (PerformAction SampleQueuedTask).2,
          e.IsCancelQueued = false)
      ∧ (∀ bAbilityEnded,
          OnDestroy (PerformAction SampleQueuedTask).2 bAbilityEnded
            = (PerformAction SampleQueuedTask).2) :=
  ⟨by decide,
    ((performed_action_stays_in_queue SampleQueuedTask).2 (by decide)).1,
    ((performed_action_stays_in_queue SampleQueuedTask).2 (by decide)).2.1⟩

/-- Cancelling a task that waits in the queue of a game mode and was not activated, is
not finished and is not pending kill, ends with the task asking the game mode to take
it out of the queue. -/
theorem CancelAction_asks_game_mode (Self : WaitForInitiativeTurnTask)
    (Character : CharacterRef) (Mode : Nat)
    (hCharacter : Self.WaitingCharacter = some Character) (hMode : Self.GameMode = some Mode)
    (hNotActivated : WasActivated Self = false) (hNotFinished : Self.bFinished = false)
    (hValid : Self.bIsPendingKill = false) :
    NewTaskEvents Self (CancelAction Self)
      = (if Self.bShouldBroadcastAbilityTaskDelegates then [TaskEvent.OnCancelled] else [])
          ++ [TaskEvent.CancelActionQueuedForInitiativeTurn Mode Character] := by
  by_cases hB : Self.bShouldBroadcastAbilityTaskDelegates = true <;>
    simp [NewTaskEvents, CancelAction, ExternalCancel, EndTask, OnDestroy, hCharacter, hMode,
      hNotActivated, hNotFinished, hValid, hB, WaitForInitiativeTurnTask.Emit, WasActivated] <;>
    simp [WasActivated] at hNotActivated <;> simp [hNotActivated]

/-- C12, the code at the failing input: the sample task was queued on the server and
not performed; `CancelAction` broadcasts `OnCancelled` and then, from `OnDestroy`, calls
`CancelActionQueuedForInitiativeTurn` on the game mode. -/
theorem cancelled_action_removes_itself :
    WasActivated SampleQueuedTask = false
      ∧ NewTaskEvents SampleQueuedTask (CancelAction SampleQueuedTask)
          = [TaskEvent.OnCancelled,
             TaskEvent.CancelActionQueuedForInitiativeTurn 1 SampleCharacter] := by
  decide

/-- While the game mode answers `QueueActionForInitiativeTurn`, whatever calls it makes
on the task, `OnQueued` is not broadcast; the answer is the result of the reply. -/
theorem QueueActionForInitiativeTurn_trace (Reply : GameModeReply)
    (Self : WaitForInitiativeTurnTask) (Mode : Nat) (Character : CharacterRef) :
    (QueueActionForInitiativeTurn Reply Self Mode Character).1 = Reply.QueueResult
      ∧ ∃ Events,
          (QueueActionForInitiativeTurn Reply Self Mode Character).2.Trace
              = Self.Trace ++ Events
            ∧ TaskEvent.OnQueued ∉ Events := by
  have hFold : ∀ (Calls : List QueuedActionCall) (Start : WaitForInitiativeTurnTask),
      ∃ Events,
        (Calls.foldl
          (fun Self Call =>
            match Call with
            | .PerformAction => (PerformAction Self).2
            | .CancelAction => CancelAction Self)
          Start).Trace = Start.Trace ++ Events
          ∧ TaskEvent.OnQueued ∉ Events := by
    intro Calls
    induction Calls with
    | nil => intro Start; exact ⟨[], by simp, by simp⟩
    | cons Call Rest ih =>
      intro Start
      rw [List.foldl_cons]
      cases Call with
      | PerformAction =>
        obtain ⟨First, hF, hFQ, -⟩ := PerformAction_trace Start
        obtain ⟨Later, hL, hLQ⟩ := ih (PerformAction Start).2
        exact ⟨First ++ Later, by rw [hL, hF, List.append_assoc], by simp [hFQ, hLQ]⟩
      | CancelAction =>
        obtain ⟨First, hF, hFQ, -⟩ := CancelAction_trace Start
        obtain ⟨Later, hL, hLQ⟩ := ih (CancelAction Start)
        exact ⟨First ++ Later, by rw [hL, hF, List.append_assoc], by simp [hFQ, hLQ]⟩
  refine ⟨rfl, ?_⟩
  obtain ⟨Events, hT, hQ⟩ :=
    hFold Reply.Calls (Self.Emit (.QueueActionForInitiativeTurn Mode Character))
  refine ⟨.QueueActionForInitiativeTurn Mode Character :: Events, ?_, by simp [hQ]⟩
  unfold QueueActionForInitiativeTurn
  simp only
  rw [hT]
  simp [WaitForInitiativeTurnTask.Emit]

/-- What `CancelAction` leaves alone: the answers of the engine about the task, the
character that waits and the game mode. -/
theorem CancelAction_frame (Self : WaitForInitiativeTurnTask) :
    (CancelAction Self).bShouldBroadcastAbilityTaskDelegates
        = Self.bShouldBroadcastAbilityTaskDelegates
      ∧ (CancelAction Self).bIsPendingKill = Self.bIsPendingKill
      ∧ (CancelAction Self).WaitingCharacter = Self.WaitingCharacter
      ∧ (CancelAction Self).GameMode = Self.GameMode := by
  rcases Self with ⟨Owner, bAbility, bAsc, bPredicting, bRemote, bBroadcast, bKill, bFinished,
    bSignal, World, Host, Name, Waiting, Mode, Outcome, bBlocks, bWaiting, Trace⟩
  unfold CancelAction ExternalCancel EndTask OnDestroy
  cases Outcome <;> cases bBroadcast <;> cases bFinished <;> cases bKill <;> cases Waiting <;>
    cases Mode <;> simp [WasActivated, WaitForInitiativeTurnTask.Emit]

/-- What `PerformAction` leaves alone: the answers of the engine about the task, the
character that waits and the game mode. -/
theorem PerformAction_frame (Self : WaitForInitiativeTurnTask) :
    (PerformAction Self).2.bShouldBroadcastAbilityTaskDelegates
        = Self.bShouldBroadcastAbilityTaskDelegates
      ∧ (PerformAction Self).2.bIsPendingKill = Self.bIsPendingKill
      ∧ (PerformAction Self).2.WaitingCharacter = Self.WaitingCharacter
      ∧ (PerformAction Self).2.GameMode = Self.GameMode := by
  rcases Self with ⟨Owner, bAbility, bAsc, bPredicting, bRemote, bBroadcast, bKill, bFinished,
    bSignal, World, Host, Name, Waiting, Mode, Outcome, bBlocks, bWaiting, Trace⟩
  unfold PerformAction EndTask OnDestroy
  cases Outcome <;> cases bAbility <;> cases bAsc <;> cases bRemote <;> cases bBroadcast <;>
    cases bFinished <;> cases bKill <;> cases Waiting <;> cases Mode <;>
    simp [WasActivated, HasAbility, HasAsc, SetShouldBlockOtherAbilities,
      WaitForInitiativeTurnTask.Emit]

/-- The task right after the game mode answered: whatever calls the game mode made on
it, the answers of the engine about the task and the character that waits are those of
before, and the game mode is stored. -/
theorem AskedToQueue_frame (Reply : GameModeReply) (Self : WaitForInitiativeTurnTask)
    (Mode : Nat) (PF2Character : CharacterRef) :
    (AskedToQueue Reply Self Mode PF2Character).bShouldBroadcastAbilityTaskDelegates
        = Self.bShouldBroadcastAbilityTaskDelegates
      ∧ (AskedToQueue Reply Self Mode PF2Character).bIsPendingKill = Self.bIsPendingKill
      ∧ (AskedToQueue Reply Self Mode PF2Character).WaitingCharacter = Self.WaitingCharacter
      ∧ (AskedToQueue Reply Self Mode PF2Character).GameMode = some Mode := by
  have hFold : ∀ (Calls : List QueuedActionCall) (Start : WaitForInitiativeTurnTask),
      (Calls.foldl
          (fun Self Call =>
            match Call with
            | .PerformAction => (PerformAction Self).2
            | .CancelAction => CancelAction Self)
          Start).bShouldBroadcastAbilityTaskDelegates
          = Start.bShouldBroadcastAbilityTaskDelegates
        ∧ (Calls.foldl
          (fun Self Call =>
            match Call with
            | .PerformAction => (PerformAction Self).2
            | .CancelAction => CancelAction Self)
          Start).bIsPendingKill = Start.bIsPendingKill
        ∧ (Calls.foldl
          (fun Self Call =>
            match Call with
            | .PerformAction => (PerformAction Self).2
            | .CancelAction => CancelAction Self)
          Start).WaitingCharacter = Start.WaitingCharacter
        ∧ (Calls.foldl
          (fun Self Call =>
            match Call with
            | .PerformAction => (PerformAction Self).2
            | .CancelAction => CancelAction Self)
          Start).GameMode = Start.GameMode := by
    intro Calls
    induction Calls with
    | nil => intro Start; exact ⟨rfl, rfl, rfl, rfl⟩
    | cons Call Rest ih =>
      intro Start
      rw [List.foldl_cons]
      cases Call with
      | PerformAction =>
        obtain ⟨h1, h2, h3, h4⟩ := ih (PerformAction Start).2
        obtain ⟨g1, g2, g3, g4⟩ := PerformAction_frame Start
        exact ⟨h1.trans g1, h2.trans g2, h3.trans g3, h4.trans g4⟩
      | CancelAction =>
        obtain ⟨h1, h2, h3, h4⟩ := ih (CancelAction Start)
        obtain ⟨g1, g2, g3, g4⟩ := CancelAction_frame Start
        exact ⟨h1.trans g1, h2.trans g2, h3.trans g3, h4.trans g4⟩
  obtain ⟨h1, h2, h3, h4⟩ :=
    hFold Reply.Calls
      (({ Self with GameMode := some Mode } : WaitForInitiativeTurnTask).Emit
        (.QueueActionForInitiativeTurn Mode PF2Character))
  exact ⟨h1, h2, h3, h4⟩

/-- What cancelling does to a task that was not activated: `OnCancelled` is broadcast
if delegates are to be broadcast, and the task is ended, which, for a task not yet
finished nor pending kill that knows its character and game mode, asks the game mode to
take the action out of the queue.  A task that was activated is left as it is. -/
theorem CancelAction_events (Self : WaitForInitiativeTurnTask) :
    (WasActivated Self = true → CancelAction Self = Self)
      ∧ (WasActivated Self = false →
          NewTaskEvents Self (CancelAction Self)
            = (if Self.bShouldBroadcastAbilityTaskDelegates then [TaskEvent.OnCancelled] else [])
              ++ (if Self.bFinished = false ∧ Self.bIsPendingKill = false then
                    match Self.WaitingCharacter, Self.GameMode with
                    | some Character, some Mode =>
                      [TaskEvent.CancelActionQueuedForInitiativeTurn Mode Character]
                    | _, _ => []
                  else [])) := by
  rcases Self with ⟨Owner, bAbility, bAsc, bPredicting, bRemote, bBroadcast, bKill, bFinished,
    bSignal, World, Host, Name, Waiting, Mode, Outcome, bBlocks, bWaiting, Trace⟩
  unfold CancelAction ExternalCancel EndTask OnDestroy NewTaskEvents
  cases Outcome <;> cases bBroadcast <;> cases bFinished <;> cases bKill <;> cases Waiting <;>
    cases Mode <;> simp [WasActivated, WaitForInitiativeTurnTask.Emit]

/-- C14: on the server, once the task has asked the game mode to queue it, a `Refused`
result cancels the task and `OnQueued` is not broadcast: `CancelAction` runs, which for
a task the game mode did not activate meanwhile broadcasts `OnCancelled` (if delegates
are to be broadcast) and ends the task, asking the game mode to drop the action of the
waiting character if the task is neither finished nor pending kill, and nothing else; an
`ExecutedImmediately` result leaves the task as the game mode's answer left it, neither
cancelled nor with `OnQueued` broadcast, with no call made after the answer; a `Queued`
result, and any other value, broadcasts `OnQueued` exactly once, makes the ability stop
blocking other abilities and puts the task into waiting, in this order and with nothing
else. -/
theorem activate_server_by_queue_result (Reply : GameModeReply)
    (Self : WaitForInitiativeTurnTask) (PF2Character : CharacterRef) (World : TaskWorld)
    (Mode : Nat) (hWorld : Self.World = some World) (hMode : World.Pf2GameMode = some Mode) :
    (Reply.QueueResult = EPF2ActionQueueResult.Refused →
        Activate_Server Reply Self PF2Character
            = CancelAction (AskedToQueue Reply Self Mode PF2Character)
          ∧ TaskEvent.OnQueued ∉ NewTaskEvents Self (Activate_Server Reply Self PF2Character)
          ∧ (WasActivated (AskedToQueue Reply Self Mode PF2Character) = true →
              Activate_Server Reply Self PF2Character
                = AskedToQueue Reply Self Mode PF2Character)
          ∧ (WasActivated (AskedToQueue Reply Self Mode PF2Character) = false →
              NewTaskEvents (AskedToQueue Reply Self Mode PF2Character)
                  (Activate_Server Reply Self PF2Character)
                = (if Self.bShouldBroadcastAbilityTaskDelegates then [TaskEvent.OnCancelled]
                   else [])
                  ++ (if (AskedToQueue Reply Self Mode PF2Character).bFinished = false
                        ∧ Self.bIsPendingKill = false then
                        match Self.WaitingCharacter with
                        | some Character =>
                          [TaskEvent.CancelActionQueuedForInitiativeTurn Mode Character]
                        | none => []
                      else [])))
      ∧ (Reply.QueueResult = EPF2ActionQueueResult.ExecutedImmediately →
          Activate_Server Reply Self PF2Character = AskedToQueue Reply Self Mode PF2Character
            ∧ TaskEvent.OnQueued
                ∉ NewTaskEvents Self (Activate_Server Reply Self PF2Character)
            ∧ NewTaskEvents (AskedToQueue Reply Self Mode PF2Character)
                (Activate_Server Reply Self PF2Character) = [])
      ∧ (Reply.QueueResult ≠ EPF2ActionQueueResult.Refused →
          Reply.QueueResult ≠ EPF2ActionQueueResult.ExecutedImmediately →
          NewTaskEvents (AskedToQueue Reply Self Mode PF2Character)
                (Activate_Server Reply Self PF2Character)
              = [TaskEvent.OnQueued, TaskEvent.SetShouldBlockOtherAbilities false,
                 TaskEvent.SetWaitingOnRemotePlayerData]
            ∧ (NewTaskEvents Self (Activate_Server Reply Self PF2Character)).count
                TaskEvent.OnQueued = 1
            ∧ (Activate_Server Reply Self PF2Character).bAbilityBlocksOtherAbilities = false
            ∧ (Activate_Server Reply Self PF2Character).bWaitingOnRemotePlayerData = true) := by
  obtain ⟨hResult, Events, hTrace, hNoQueued⟩ :=
    QueueActionForInitiativeTurn_trace Reply { Self with GameMode := some Mode } Mode
      PF2Character
  have hAsked : (AskedToQueue Reply Self Mode PF2Character).Trace = Self.Trace ++ Events :=
    hTrace
  have hServer : Activate_Server Reply Self PF2Character
      = (match Reply.QueueResult with
        | .Refused => CancelAction (AskedToQueue Reply Self Mode PF2Character)
        | .ExecutedImmediately => AskedToQueue Reply Self Mode PF2Character
        | _ =>
          SetWaitingOnRemotePlayerData
            (SetShouldBlockOtherAbilities
              ((AskedToQueue Reply Self Mode PF2Character).Emit .OnQueued) false)) := by
    cases Self
    simp only at hWorld
    subst hWorld
    cases World
    simp only at hMode
    subst hMode
    rfl
  refine ⟨fun hR => ?_, fun hE => ?_, fun hNR hNE => ?_⟩
  · rw [hServer, hR]
    obtain ⟨hBroadcast, hKill, hWaiting, hGameMode⟩ :=
      AskedToQueue_frame Reply Self Mode PF2Character
    obtain ⟨hWas, hWasNot⟩ := CancelAction_events (AskedToQueue Reply Self Mode PF2Character)
    refine ⟨rfl, ?_, hWas, ?_⟩
    · obtain ⟨Cancel, hC, hCQ, -⟩ :=
        CancelAction_trace (AskedToQueue Reply Self Mode PF2Character)
      simp only [NewTaskEvents]
      rw [hC, hAsked, List.append_assoc, List.drop_left]
      simp [hNoQueued, hCQ]
    · intro hNot
      have h := hWasNot hNot
      rw [hBroadcast, hKill, hWaiting, hGameMode] at h
      rw [h]
      cases Self.WaitingCharacter <;> rfl
  · rw [hServer, hE]
    refine ⟨rfl, ?_, by simp [NewTaskEvents]⟩
    simp only [NewTaskEvents]
    rw [hAsked, List.drop_left]
    exact hNoQueued
  · have hOther : Activate_Server Reply Self PF2Character
        = SetWaitingOnRemotePlayerData
            (SetShouldBlockOtherAbilities
              ((AskedToQueue Reply Self Mode PF2Character).Emit .OnQueued) false) := by
      rw [hServer]
      cases hQ : Reply.QueueResult with
      | Refused => exact absurd hQ hNR
      | ExecutedImmediately => exact absurd hQ hNE
      | Queued => rfl
      | Other Value => rfl
    rw [hOther]
    refine ⟨?_, ?_, rfl, rfl⟩
    · simp [NewTaskEvents, SetWaitingOnRemotePlayerData, SetShouldBlockOtherAbilities,
        WaitForInitiativeTurnTask.Emit]
    · simp only [NewTaskEvents, SetWaitingOnRemotePlayerData, SetShouldBlockOtherAbilities,
        WaitForInitiativeTurnTask.Emit, hAsked, List.append_assoc, List.drop_left]
      rw [List.count_append, List.count_eq_zero_of_not_mem hNoQueued]
      decide

/-- C14 on the sample task, with a game mode that refuses (the task broadcasts
`OnCancelled` and asks the game mode to drop the action), one that executes at once,
and one that queues. -/
theorem activate_server_by_queue_result_witness :
    (SampleWaitingTask.World = some { Pf2GameMode := some 1 })
      ∧ NewTaskEvents
            (AskedToQueue { Calls := [], QueueResult := .Refused } SampleWaitingTask 1
              SampleCharacter)
            (Activate_Server { Calls := [], QueueResult := .Refused } SampleWaitingTask
              SampleCharacter)
          = [TaskEvent.OnCancelled,
             TaskEvent.CancelActionQueuedForInitiativeTurn 1 SampleCharacter]
      ∧ Activate_Server { Calls := [.PerformAction], QueueResult := .ExecutedImmediately }
            SampleWaitingTask SampleCharacter
          = AskedToQueue { Calls := [.PerformAction], QueueResult := .ExecutedImmediately }
              SampleWaitingTask 1 SampleCharacter
      ∧ (NewTaskEvents SampleWaitingTask
            (Activate_Server { Calls := [], QueueResult := .Queued } SampleWaitingTask
              SampleCharacter)).count TaskEvent.OnQueued = 1 :=
  ⟨rfl,
    ((activate_server_by_queue_result { Calls := [], QueueResult := .Refused }
      SampleWaitingTask SampleCharacter { Pf2GameMode := some 1 } 1 rfl rfl).1 rfl).2.2.2 rfl,
    ((activate_server_by_queue_result
      { Calls := [.PerformAction], QueueResult := .ExecutedImmediately } SampleWaitingTask
      SampleCharacter { Pf2GameMode := some 1 } 1 rfl rfl).2.1 rfl).1,
    ((activate_server_by_queue_result { Calls := [], QueueResult := .Queued } SampleWaitingTask
      SampleCharacter { Pf2GameMode := some 1 } 1 rfl rfl).2.2 (by decide) (by decide)).2.1⟩

/-! ### Command bindings -/

/-- What holds of a binding against some registered action bindings holds against
more. -/
theorem WiredUp_mono {Registered More : List FInputActionBinding}
    {Before After : FPF2CommandInputBinding} (hWired : WiredUp Registered Before After)
    (hMore : ∀ Binding ∈ Registered, Binding ∈ More) : WiredUp More Before After := by
  refine ⟨fun hNew => ?_, hWired.2⟩
  obtain ⟨hName, hSpec, Pressed, Released, hHandles, hP, hR⟩ := hWired.1 hNew
  exact ⟨hName, hSpec, Pressed, Released, hHandles, hMore _ hP, hMore _ hR⟩

/-- One binding: `ConnectToInput` wires it if it has an action and is not wired, and
leaves it alone otherwise; the input component keeps what it had, gains two action
bindings in the first case and none in the second, and the binding is afterwards wired
or without action. -/
theorem ConnectToInput_binding (Binding : FPF2CommandInputBinding)
    (InputComponent : UInputComponent) :
    WiredUp (Binding.ConnectToInput InputComponent).2.ActionBindings Binding
        (Binding.ConnectToInput InputComponent).1
      ∧ List.IsPrefix InputComponent.ActionBindings
          (Binding.ConnectToInput InputComponent).2.ActionBindings
      ∧ (Binding.ConnectToInput InputComponent).2.ObjectId = InputComponent.ObjectId
      ∧ ((Binding.ConnectToInput InputComponent).1.IsConnectedToInput = true
          ∨ (Binding.ConnectToInput InputComponent).1.ActionName = none)
      ∧ (Binding.ConnectToInput InputComponent).2.ActionBindings.length
          = InputComponent.ActionBindings.length
              + 2 * (if (!Binding.IsConnectedToInput && !Binding.ActionName.isNone) = true
                      then 1 else 0) := by
  unfold FPF2CommandInputBinding.ConnectToInput
  by_cases hG : (!Binding.IsConnectedToInput && !Binding.ActionName.isNone) = true
  · rw [if_pos hG, if_pos hG]
    have hG' := hG
    simp only [Bool.and_eq_true, Bool.not_eq_true', Option.isNone_eq_false_iff,
      Option.isSome_iff_ne_none] at hG'
    refine ⟨⟨fun _ => ⟨rfl, rfl, InputComponent.NextHandle, InputComponent.NextHandle + 1, ?_, ?_, ?_⟩,
      fun hNot => absurd ⟨hG'.2, hG'.1⟩ hNot⟩, ?_, rfl, ?_, ?_⟩
    · simp [FPF2CommandInputBinding.AddActionBinding, UInputComponent.AddActionBinding]
    · simp [FPF2CommandInputBinding.AddActionBinding, UInputComponent.AddActionBinding]
    · simp [FPF2CommandInputBinding.AddActionBinding, UInputComponent.AddActionBinding]
    · simp [FPF2CommandInputBinding.AddActionBinding, UInputComponent.AddActionBinding,
        List.append_assoc]
    · left
      simp [FPF2CommandInputBinding.IsConnectedToInput]
    · simp [FPF2CommandInputBinding.AddActionBinding, UInputComponent.AddActionBinding]
  · rw [if_neg hG, if_neg hG]
    have hG' := hG
    simp only [Bool.and_eq_true, Bool.not_eq_true', Option.isNone_eq_false_iff,
      Option.isSome_iff_ne_none, not_and_or, Bool.not_eq_false, not_not] at hG'
    refine ⟨⟨fun hNew => ?_, fun _ => rfl⟩, List.prefix_refl _, rfl, ?_, by simp⟩
    · rcases hG' with h | h
      · rw [hNew.2] at h; exact absurd h (by decide)
      · exact absurd h hNew.1
    · rcases hG' with h | h
      · exact Or.inl h
      · exact Or.inr h

/-- The loop over the bindings: every binding is wired or left alone as
`ConnectToInput` does for one binding, the input component keeps what it had and gains
two action bindings per wired binding, and afterwards every binding is wired or without
action. -/
theorem ConnectBindingsToInput_spec (Bindings : List FPF2CommandInputBinding) :
    ∀ InputComponent : UInputComponent,
      List.Forall₂ (WiredUp (ConnectBindingsToInput Bindings InputComponent).2.ActionBindings)
          Bindings (ConnectBindingsToInput Bindings InputComponent).1
        ∧ List.IsPrefix InputComponent.ActionBindings
            (ConnectBindingsToInput Bindings InputComponent).2.ActionBindings
        ∧ (ConnectBindingsToInput Bindings InputComponent).2.ObjectId = InputComponent.ObjectId
        ∧ (∀ Binding ∈ (ConnectBindingsToInput Bindings InputComponent).1,
            Binding.IsConnectedToInput = true ∨ Binding.ActionName = none)
        ∧ (ConnectBindingsToInput Bindings InputComponent).2.ActionBindings.length
            = InputComponent.ActionBindings.length
                + 2 * Bindings.countP
                    (fun Binding => !Binding.IsConnectedToInput && !Binding.ActionName.isNone) := by
  induction Bindings with
  | nil =>
    intro InputComponent
    exact ⟨List.Forall₂.nil, List.prefix_refl _, rfl, by simp [ConnectBindingsToInput],
      by simp [ConnectBindingsToInput]⟩
  | cons Binding Rest ih =>
    intro InputComponent
    obtain ⟨hW, hP, hId, hC, hLen⟩ := ConnectToInput_binding Binding InputComponent
    obtain ⟨ihW, ihP, ihId, ihC, ihLen⟩ := ih (Binding.ConnectToInput InputComponent).2
    have hEq : ConnectBindingsToInput (Binding :: Rest) InputComponent
        = ((Binding.ConnectToInput InputComponent).1
              :: (ConnectBindingsToInput Rest (Binding.ConnectToInput InputComponent).2).1,
            (ConnectBindingsToInput Rest (Binding.ConnectToInput InputComponent).2).2) := rfl
    rw [hEq]
    refine ⟨List.Forall₂.cons (WiredUp_mono hW (fun B hB => ihP.subset hB)) ihW,
      hP.trans ihP, ihId.trans hId, ?_, ?_⟩
    · intro B hB
      rcases List.mem_cons.mp hB with h | h
      · rw [h]; exact hC
      · exact ihC B h
    · simp only
      rw [ihLen, hLen, List.countP_cons]
      by_cases hG : (!Binding.IsConnectedToInput && !Binding.ActionName.isNone) = true
      · simp only [hG, if_true]; omega
      · simp only [hG, if_false]; simp

/-- Bindings that are all wired or without action pass through the loop unchanged, and
so does the input component. -/
theorem ConnectBindingsToInput_nothing_new (Bindings : List FPF2CommandInputBinding)
    (hDone : ∀ Binding ∈ Bindings, Binding.IsConnectedToInput = true ∨ Binding.ActionName = none) :
    ∀ InputComponent : UInputComponent,
      ConnectBindingsToInput Bindings InputComponent = (Bindings, InputComponent) := by
  induction Bindings with
  | nil => intro InputComponent; rfl
  | cons Binding Rest ih =>
    intro InputComponent
    have hHead : Binding.ConnectToInput InputComponent = (Binding, InputComponent) := by
      unfold FPF2CommandInputBinding.ConnectToInput
      rcases hDone Binding (List.mem_cons_self _ _) with h | h <;> simp [h]
    have hRest := ih (fun B hB => hDone B (List.mem_cons_of_mem _ hB)) InputComponent
    show ((Binding.ConnectToInput InputComponent).1
            :: (ConnectBindingsToInput Rest (Binding.ConnectToInput InputComponent).2).1,
          (ConnectBindingsToInput Rest (Binding.ConnectToInput InputComponent).2).2)
        = (Binding :: Rest, InputComponent)
    rw [hHead]
    simp only
    rw [hRest]

/-- C13: `ConnectToInput(c)` on the command bindings component (not wired to another
input component) wires exactly the bindings that have an action name and are not yet
wired, giving each of them two action-binding handles, one registered with `c` for the
pressed and one for the released event; bindings without action and bindings already
wired are unchanged.  `c` keeps the action bindings it had and gains two per wired
binding.  A second `ConnectToInput(c)` right after changes neither the component nor
`c`: nothing new is registered. -/
theorem connect_to_input_wires_new_bindings (Self : UPF2CommandBindingsComponent)
    (NewInputComponent : UInputComponent)
    (hCheck : Self.IsConnectedToInput = false
      ∨ Self.InputComponent = some NewInputComponent.ObjectId) :
    ∃ (Wired : UPF2CommandBindingsComponent) (InputComponent : UInputComponent),
      Self.ConnectToInput NewInputComponent = some (Wired, InputComponent)
        ∧ List.Forall₂ (WiredUp InputComponent.ActionBindings) Self.Bindings Wired.Bindings
        ∧ Wired.InputComponent = some NewInputComponent.ObjectId
        ∧ InputComponent.ObjectId = NewInputComponent.ObjectId
        ∧ List.IsPrefix NewInputComponent.ActionBindings InputComponent.ActionBindings
        ∧ InputComponent.ActionBindings.length
            = NewInputComponent.ActionBindings.length
                + 2 * Self.Bindings.countP
                    (fun Binding => !Binding.IsConnectedToInput && !Binding.ActionName.isNone)
        ∧ Wired.ConnectToInput InputComponent = some (Wired, InputComponent) := by
  obtain ⟨hW, hP, hId, hC, hLen⟩ := ConnectBindingsToInput_spec Self.Bindings NewInputComponent
  have hGuard : (!Self.IsConnectedToInput
      || Self.InputComponent == some NewInputComponent.ObjectId) = true := by
    rcases hCheck with h | h <;> simp [h]
  refine ⟨{ Bindings := (ConnectBindingsToInput Self.Bindings NewInputComponent).1
            InputComponent :=
              some (ConnectBindingsToInput Self.Bindings NewInputComponent).2.ObjectId },
    (ConnectBindingsToInput Self.Bindings NewInputComponent).2, ?_, hW, by rw [hId], hId, hP,
    hLen, ?_⟩
  · unfold UPF2CommandBindingsComponent.ConnectToInput
    rw [if_pos hGuard]
  · unfold UPF2CommandBindingsComponent.ConnectToInput
    simp only [beq_self_eq_true, Bool.or_true, if_true]
    rw [ConnectBindingsToInput_nothing_new _ hC]

/-- C13 on the sample component: of its three bindings one is wired, and the input
component goes from two action bindings to four. -/
theorem connect_to_input_wires_new_bindings_witness :
    SampleBindings.IsConnectedToInput = false
      ∧ ∃ (Wired : UPF2CommandBindingsComponent) (InputComponent : UInputComponent),
          SampleBindings.ConnectToInput SampleInputComponent = some (Wired, InputComponent)
            ∧ InputComponent.ActionBindings.length = 2 + 2 * 1
            ∧ Wired.ConnectToInput InputComponent = some (Wired, InputComponent) :=
  ⟨rfl,
    (connect_to_input_wires_new_bindings SampleBindings SampleInputComponent (Or.inl rfl)).imp
      fun _ h => h.imp fun _ h => ⟨h.1, h.2.2.2.2.2.1, h.2.2.2.2.2.2⟩⟩

end PF2
